import Mathlib

/-!
Verification development for the Biosimulations_utils repository: a shallow
embedding in Lean 4 of the data-model and reader code that the frozen claims
are about, followed by theorems settling each claim.

Conventions of the embedding:
* Python JSON values are modelled by the inductive `Json` below; Python
  floats are modelled by exact rationals (`Rat`), as is standard for a
  shallow embedding of the arithmetic the code performs.
* Python exceptions are modelled by `Except String` results, the error
  string naming the exception/message raised.
* `None`-able fields are `Option`s; Python's `x or y` idiom on strings
  (empty string is falsey) is translated explicitly at each use site.
* libsbml / requests / ete3 / wc_utils are external libraries (out of scope
  per the spec); the few values the code under verification reads from them
  (pre-rendered unit-definition strings, HTTP statuses, parsed byte
  contents) are abstracted as fields of the input structures or as function
  parameters, never the logic of this repository itself.
-/

/-- A JSON value as manipulated by the Python data model: null, booleans,
integers, floats (modelled as exact rationals), strings, arrays and objects
(association lists, preserving key order as Python dicts do). -/
inductive Json where
  | null
  | jbool (v : Bool)
  | jint (v : Int)
  | jnum (v : Rat)
  | jstr (v : String)
  | jarr (vs : List Json)
  | jobj (kvs : List (String × Json))

/-- Structural equality of JSON values, modelling Python `==` on the
JSON-shaped values the data model stores in `value` fields. -/
def Json.beq : Json → Json → Bool
  | .null, .null => true
  | .jbool a, .jbool b => a == b
  | .jint a, .jint b => a == b
  | .jnum a, .jnum b => a == b
  | .jstr a, .jstr b => a == b
  | .jarr [], .jarr [] => true
  | .jarr (a :: as), .jarr (b :: bs) => Json.beq a b && Json.beq (.jarr as) (.jarr bs)
  | .jobj [], .jobj [] => true
  | .jobj ((ka, va) :: as), .jobj ((kb, vb) :: bs) =>
      ka == kb && Json.beq va vb && Json.beq (.jobj as) (.jobj bs)
  | _, _ => false

/-- Python `val.get(key, None)` on a dict: the stored value, or null when the
key is absent (or the value is not an object). -/
def Json.get : Json → String → Json
  | .jobj kvs, k => ((kvs.find? (fun kv => kv.1 = k)).map Prod.snd).getD Json.null
  | _, _ => Json.null

/-- Python `key in val` on a dict: key presence, regardless of the value. -/
def Json.hasKey : Json → String → Bool
  | .jobj kvs, k => kvs.any (fun kv => kv.1 = k)
  | _, _ => false

/-- Python truthiness of a JSON value (`if val.get(...)`): None, False, 0,
empty string, empty list and empty dict are falsey. -/
def Json.truthy : Json → Bool
  | .null => false
  | .jbool v => v
  | .jint v => v != 0
  | .jnum v => v != 0
  | .jstr v => v != ""
  | .jarr vs => !vs.isEmpty
  | .jobj kvs => !kvs.isEmpty

/-- The string stored in a JSON value, if it is a string. -/
def Json.asStr? : Json → Option String
  | .jstr v => some v
  | _ => none

/-- The integer stored in a JSON value, if it is an integer. -/
def Json.asInt? : Json → Option Int
  | .jint v => some v
  | _ => none

/-- The elements of a JSON array (empty for non-arrays, matching the
`val.get(key, [])` default used by the deserializers). -/
def Json.items : Json → List Json
  | .jarr vs => vs
  | _ => []

/-- The strings of a JSON array of strings (used for `tags`, whose schema
type is a list of strings). -/
def Json.strItems (j : Json) : List String :=
  j.items.filterMap Json.asStr?

/-- Encode an optional string as JSON (None becomes null). -/
def optStrJson : Option String → Json
  | none => Json.null
  | some s => Json.jstr s

/-- Encode an optional integer as JSON (None becomes null). -/
def optIntJson : Option Int → Json
  | none => Json.null
  | some n => Json.jint n

/-- Modelled from the spec: the enumerated value `type` of parameters and
variables (`Type` in `Biosimulations_format_utils/data_model.py`, a file of
this repository not present under src/); reconstructed "by value lookup". -/
inductive ValType where
  | boolean
  | integer
  | float
  | string
deriving DecidableEq, Repr

/-- The `value` string of a `ValType` member (`self.type.value`). -/
def ValType.value : ValType → String
  | .boolean => "boolean"
  | .integer => "integer"
  | .float => "float"
  | .string => "string"

/-- Enum lookup by value, `Type(s)`: the member whose value is `s`. -/
def ValType.fromValue : String → Option ValType
  | "boolean" => some .boolean
  | "integer" => some .integer
  | "float" => some .float
  | "string" => some .string
  | _ => none

/-- Modelled from the spec: the enumerated `License` of a model (defined in
the `data_model.py` missing from src/); reconstructed by value lookup. -/
inductive License where
  | cc0
  | cc_by
  | cc_by_sa
  | cc_by_nc
  | cc_by_nc_sa
  | mit
  | other
deriving DecidableEq, Repr

/-- The `value` string of a `License` member (`self.license.value`). -/
def License.value : License → String
  | .cc0 => "CC0"
  | .cc_by => "CC BY"
  | .cc_by_sa => "CC BY-SA"
  | .cc_by_nc => "CC BY-NC"
  | .cc_by_nc_sa => "CC BY-NC-SA"
  | .mit => "MIT"
  | .other => "Other"

/-- Enum lookup by value, `License(s)`. -/
def License.fromValue (s : String) : Option License :=
  [License.cc0, .cc_by, .cc_by_sa, .cc_by_nc, .cc_by_nc_sa, .mit, .other].find?
    (fun l => l.value = s)

/-- Modelled from the spec: the `Identifier` record (namespace, id, url) of
the `data_model.py` missing from src/, with value-based field-wise equality,
JSON (de)serialization that are exact inverses, and a sort key built from
its identifying fields. -/
structure Identifier where
  «namespace» : Option String
  id : Option String
  url : Option String
deriving DecidableEq, Repr

/-- JSON export of an `Identifier`. -/
def Identifier.toJson (x : Identifier) : Json :=
  Json.jobj [("namespace", optStrJson x.namespace), ("id", optStrJson x.id),
    ("url", optStrJson x.url)]

/-- JSON import of an `Identifier`, tolerating missing keys. -/
def Identifier.fromJson (val : Json) : Identifier :=
  { «namespace» := (val.get "namespace").asStr?
    id := (val.get "id").asStr?
    url := (val.get "url").asStr? }

/-- Sort key of an `Identifier` (its identifying fields). -/
def Identifier.sortKey (x : Identifier) : List String :=
  [x.namespace.getD "", x.id.getD "", x.url.getD ""]

/-- Modelled from the spec: the `JournalReference` record of the missing
`data_model.py` (authors, title, journal, volume, issue, pages, year). -/
structure JournalReference where
  authors : Option String
  title : Option String
  journal : Option String
  volume : Option String
  issue : Option String
  pages : Option String
  year : Option Int
deriving DecidableEq, Repr

/-- JSON export of a `JournalReference`. -/
def JournalReference.toJson (x : JournalReference) : Json :=
  Json.jobj [("authors", optStrJson x.authors), ("title", optStrJson x.title),
    ("journal", optStrJson x.journal), ("volume", optStrJson x.volume),
    ("issue", optStrJson x.issue), ("pages", optStrJson x.pages),
    ("year", optIntJson x.year)]

/-- JSON import of a `JournalReference`. -/
def JournalReference.fromJson (val : Json) : JournalReference :=
  { authors := (val.get "authors").asStr?
    title := (val.get "title").asStr?
    journal := (val.get "journal").asStr?
    volume := (val.get "volume").asStr?
    issue := (val.get "issue").asStr?
    pages := (val.get "pages").asStr?
    year := (val.get "year").asInt? }

/-- Sort key of a `JournalReference`. -/
def JournalReference.sortKey (x : JournalReference) : List String :=
  [x.authors.getD "", x.title.getD "", x.journal.getD "", x.volume.getD "",
   x.issue.getD "", x.pages.getD "", (x.year.map toString).getD ""]

/-- Modelled from the spec: the `Person` record of the missing
`data_model.py` (first, middle and last name). -/
structure Person where
  firstName : Option String
  middleName : Option String
  lastName : Option String
deriving DecidableEq, Repr

/-- JSON export of a `Person`. -/
def Person.toJson (x : Person) : Json :=
  Json.jobj [("firstName", optStrJson x.firstName),
    ("middleName", optStrJson x.middleName), ("lastName", optStrJson x.lastName)]

/-- JSON import of a `Person`. -/
def Person.fromJson (val : Json) : Person :=
  { firstName := (val.get "firstName").asStr?
    middleName := (val.get "middleName").asStr?
    lastName := (val.get "lastName").asStr? }

/-- Sort key of a `Person` (last, first, middle name). -/
def Person.sortKey (x : Person) : List String :=
  [x.lastName.getD "", x.firstName.getD "", x.middleName.getD ""]

/-- Modelled from the spec: the `RemoteFile` record of the missing
`data_model.py` (name, MIME type, byte size), as constructed by the SBML
reader and `visualize_biomodel` in src/. -/
structure RemoteFile where
  name : Option String
  type : Option String
  size : Option Int
deriving DecidableEq, Repr

/-- JSON export of a `RemoteFile`. -/
def RemoteFile.toJson (x : RemoteFile) : Json :=
  Json.jobj [("name", optStrJson x.name), ("type", optStrJson x.type),
    ("size", optIntJson x.size)]

/-- JSON import of a `RemoteFile`. -/
def RemoteFile.fromJson (val : Json) : RemoteFile :=
  { name := (val.get "name").asStr?
    type := (val.get "type").asStr?
    size := (val.get "size").asInt? }

/-- Modelled from the spec: the `Format` record of the missing
`data_model.py` (id, name, version, EDAM id, url, spec url), as used by the
SBML reader (`model.format.version`). -/
structure Format where
  id : Option String
  name : Option String
  version : Option String
  edamId : Option String
  url : Option String
  specUrl : Option String
deriving DecidableEq, Repr

/-- JSON export of a `Format`. -/
def Format.toJson (x : Format) : Json :=
  Json.jobj [("id", optStrJson x.id), ("name", optStrJson x.name),
    ("version", optStrJson x.version), ("edamId", optStrJson x.edamId),
    ("url", optStrJson x.url), ("specUrl", optStrJson x.specUrl)]

/-- JSON import of a `Format`. -/
def Format.fromJson (val : Json) : Format :=
  { id := (val.get "id").asStr?
    name := (val.get "name").asStr?
    version := (val.get "version").asStr?
    edamId := (val.get "edamId").asStr?
    url := (val.get "url").asStr?
    specUrl := (val.get "specUrl").asStr? }

/-- Sort key of a `Format`. -/
def Format.sortKey (x : Format) : List String :=
  [x.id.getD "", x.name.getD "", x.version.getD ""]

/-- Modelled from the spec: the `OntologyTerm` record of the missing
`data_model.py` (ontology, id, name, description, iri), the type of a
model's modeling framework. -/
structure OntologyTerm where
  ontology : Option String
  id : Option String
  name : Option String
  description : Option String
  iri : Option String
deriving DecidableEq, Repr

/-- JSON export of an `OntologyTerm`. -/
def OntologyTerm.toJson (x : OntologyTerm) : Json :=
  Json.jobj [("ontology", optStrJson x.ontology), ("id", optStrJson x.id),
    ("name", optStrJson x.name), ("description", optStrJson x.description),
    ("iri", optStrJson x.iri)]

/-- JSON import of an `OntologyTerm`. -/
def OntologyTerm.fromJson (val : Json) : OntologyTerm :=
  { ontology := (val.get "ontology").asStr?
    id := (val.get "id").asStr?
    name := (val.get "name").asStr?
    description := (val.get "description").asStr?
    iri := (val.get "iri").asStr? }

/-- Sort key of an `OntologyTerm`. -/
def OntologyTerm.sortKey (x : OntologyTerm) : List String :=
  [x.ontology.getD "", x.id.getD ""]

/-- Modelled from the spec: the `Taxon` record of the missing
`data_model.py` (numeric taxonomy id and name), as constructed by
`SbmlBiomodelReader._read_metadata` (`Taxon(id=taxon_id, name=taxon_name)`). -/
structure Taxon where
  id : Option Int
  name : Option String
deriving DecidableEq, Repr

/-- JSON export of a `Taxon`. -/
def Taxon.toJson (x : Taxon) : Json :=
  Json.jobj [("id", optIntJson x.id), ("name", optStrJson x.name)]

/-- JSON import of a `Taxon`. -/
def Taxon.fromJson (val : Json) : Taxon :=
  { id := (val.get "id").asInt?
    name := (val.get "name").asStr? }

/-- Insert into a list sorted by the boolean order `le` (helper for the
Python `sorted(...)` used by the equality methods). -/
def insertSorted (le : α → α → Bool) (a : α) : List α → List α
  | [] => [a]
  | b :: bs => if le a b then a :: b :: bs else b :: insertSorted le a bs

/-- Insertion sort by the boolean order `le`, modelling Python `sorted`. -/
def sortByBool (le : α → α → Bool) (xs : List α) : List α :=
  xs.foldr (insertSorted le) []

/-- Lexicographic order on lists of strings, modelling Python tuple
comparison of the string sort keys. -/
def strListLe : List String → List String → Bool
  | [], _ => true
  | _ :: _, [] => false
  | a :: as, b :: bs => if a = b then strListLe as bs else decide (a < b)

/-- Python `sorted(xs, key=key)` where the key is a tuple of strings. -/
def sortedByKey (key : α → List String) (xs : List α) : List α :=
  sortByBool (fun a b => strListLe (key a) (key b)) xs

/-- Python `==` on two lists, comparing elementwise with `eq`. -/
def pyListEq (eq : α → α → Bool) : List α → List α → Bool
  | [], [] => true
  | a :: as, b :: bs => eq a b && pyListEq eq as bs
  | _, _ => false

/-- Python `sorted(xs, key=key) == sorted(ys, key=key)`, with elementwise
equality `eq` (the element type's own `__eq__`). -/
def sortedEqBy (key : α → List String) (eq : α → α → Bool) (xs ys : List α) : Bool :=
  pyListEq eq (sortedByKey key xs) (sortedByKey key ys)

/-- `Parameter` of `Biosimulations_format_utils/model/data_model.py`
(lines 156-273): a parameter of a model. `value` and `recommended_range`
pass through (de)serialization unchanged, so they are kept as `Json`. -/
structure Parameter where
  target : Option String
  group : Option String
  id : Option String
  name : Option String
  description : Option String
  identifiers : List Identifier
  type : Option ValType
  value : Json
  recommendedRange : Json
  units : Option String

/-- `Parameter.to_json` (data_model.py lines 221-238). -/
def Parameter.toJson (x : Parameter) : Json :=
  Json.jobj [
    ("target", optStrJson x.target),
    ("group", optStrJson x.group),
    ("id", optStrJson x.id),
    ("name", optStrJson x.name),
    ("description", optStrJson x.description),
    ("identifiers", Json.jarr (x.identifiers.map Identifier.toJson)),
    ("type", (x.type.map (fun t => Json.jstr t.value)).getD Json.null),
    ("value", x.value),
    ("recommendedRange", x.recommendedRange),
    ("units", optStrJson x.units)]

/-- `Parameter.from_json` (data_model.py lines 240-261). `Type(...)` raises
on an unrecognized value; here the enum lookup simply yields `none` in that
case (the round-trip claims only apply it to values `to_json` produced). -/
def Parameter.fromJson (val : Json) : Parameter :=
  { target := (val.get "target").asStr?
    group := (val.get "group").asStr?
    id := (val.get "id").asStr?
    name := (val.get "name").asStr?
    description := (val.get "description").asStr?
    identifiers := ((val.get "identifiers").items).map Identifier.fromJson
    type := if (val.get "type").truthy then ValType.fromValue (((val.get "type").asStr?).getD "") else none
    value := val.get "value"
    recommendedRange := val.get "recommendedRange"
    units := (val.get "units").asStr? }

/-- `Parameter.sort_key` (data_model.py lines 263-273): the parameter id. -/
def Parameter.sortKey (x : Parameter) : List String :=
  [x.id.getD ""]

/-- `Parameter.__eq__` (data_model.py lines 200-219): field-wise, with
identifiers compared after sorting by `Identifier.sort_key`. -/
def Parameter.pyEq (a b : Parameter) : Bool :=
  a.target == b.target
    && a.group == b.group
    && a.id == b.id
    && a.name == b.name
    && a.description == b.description
    && sortedEqBy Identifier.sortKey (fun x y => x == y) a.identifiers b.identifiers
    && a.type == b.type
    && Json.beq a.value b.value
    && Json.beq a.recommendedRange b.recommendedRange
    && a.units == b.units

/-- `Variable` of `Biosimulations_format_utils/model/data_model.py`
(lines 276-381): a variable of a model. -/
structure Variable where
  target : Option String
  group : Option String
  id : Option String
  name : Option String
  description : Option String
  identifiers : List Identifier
  type : Option ValType
  units : Option String
deriving DecidableEq

/-- `Variable.to_json` (data_model.py lines 333-348). -/
def Variable.toJson (x : Variable) : Json :=
  Json.jobj [
    ("target", optStrJson x.target),
    ("group", optStrJson x.group),
    ("id", optStrJson x.id),
    ("name", optStrJson x.name),
    ("description", optStrJson x.description),
    ("identifiers", Json.jarr (x.identifiers.map Identifier.toJson)),
    ("type", (x.type.map (fun t => Json.jstr t.value)).getD Json.null),
    ("units", optStrJson x.units)]

/-- `Variable.from_json` (data_model.py lines 350-369). -/
def Variable.fromJson (val : Json) : Variable :=
  { target := (val.get "target").asStr?
    group := (val.get "group").asStr?
    id := (val.get "id").asStr?
    name := (val.get "name").asStr?
    description := (val.get "description").asStr?
    identifiers := ((val.get "identifiers").items).map Identifier.fromJson
    type := if (val.get "type").truthy then ValType.fromValue (((val.get "type").asStr?).getD "") else none
    units := (val.get "units").asStr? }

/-- `Variable.sort_key` (data_model.py lines 371-381): the variable id. -/
def Variable.sortKey (x : Variable) : List String :=
  [x.id.getD ""]

/-- `Variable.__eq__` (data_model.py lines 314-331). -/
def Variable.pyEq (a b : Variable) : Bool :=
  a.target == b.target
    && a.group == b.group
    && a.id == b.id
    && a.name == b.name
    && a.description == b.description
    && sortedEqBy Identifier.sortKey (fun x y => x == y) a.identifiers b.identifiers
    && a.type == b.type
    && a.units == b.units

/-- `Model` of `Biosimulations_format_utils/model/data_model.py`
(lines 18-153): a biomodel. List fields default to empty on construction;
they are plain lists here. -/
structure Model where
  id : Option String
  name : Option String
  file : Option RemoteFile
  image : Option RemoteFile
  description : Option String
  format : Option Format
  framework : Option OntologyTerm
  taxon : Option Taxon
  tags : List String
  identifiers : List Identifier
  refs : List JournalReference
  authors : List Person
  license : Option License
  parameters : List Parameter
  «variables» : List Variable

/-- `Model.to_json` (data_model.py lines 103-125). -/
def Model.toJson (x : Model) : Json :=
  Json.jobj [
    ("id", optStrJson x.id),
    ("name", optStrJson x.name),
    ("file", (x.file.map RemoteFile.toJson).getD Json.null),
    ("image", (x.image.map RemoteFile.toJson).getD Json.null),
    ("description", optStrJson x.description),
    ("format", (x.format.map Format.toJson).getD Json.null),
    ("framework", (x.framework.map OntologyTerm.toJson).getD Json.null),
    ("taxon", (x.taxon.map Taxon.toJson).getD Json.null),
    ("tags", Json.jarr (x.tags.map Json.jstr)),
    ("identifiers", Json.jarr (x.identifiers.map Identifier.toJson)),
    ("refs", Json.jarr (x.refs.map JournalReference.toJson)),
    ("authors", Json.jarr (x.authors.map Person.toJson)),
    ("license", (x.license.map (fun l => Json.jstr l.value)).getD Json.null),
    ("parameters", Json.jarr (x.parameters.map Parameter.toJson)),
    ("variables", Json.jarr (x.«variables».map Variable.toJson))]

/-- `Model.from_json` (data_model.py lines 127-153). -/
def Model.fromJson (val : Json) : Model :=
  { id := (val.get "id").asStr?
    name := (val.get "name").asStr?
    file := if (val.get "file").truthy then some (RemoteFile.fromJson (val.get "file")) else none
    image := if (val.get "image").truthy then some (RemoteFile.fromJson (val.get "image")) else none
    description := (val.get "description").asStr?
    format := if (val.get "format").truthy then some (Format.fromJson (val.get "format")) else none
    framework := if (val.get "framework").truthy then some (OntologyTerm.fromJson (val.get "framework")) else none
    taxon := if (val.get "taxon").truthy then some (Taxon.fromJson (val.get "taxon")) else none
    tags := (val.get "tags").strItems
    identifiers := ((val.get "identifiers").items).map Identifier.fromJson
    refs := ((val.get "refs").items).map JournalReference.fromJson
    authors := ((val.get "authors").items).map Person.fromJson
    license := if (val.get "license").truthy then License.fromValue (((val.get "license").asStr?).getD "") else none
    parameters := ((val.get "parameters").items).map Parameter.fromJson
    «variables» := ((val.get "variables").items).map Variable.fromJson }

/-- The comparison written on line 94 of data_model.py, `self.taxon ==
other.id`, as Python evaluates it: `None == None` is `True`; a `Taxon`
instance never equals a `str` or `None` (its `__eq__` checks
`isinstance`), and `None` never equals a `str`. -/
def pyEqTaxonId : Option Taxon → Option String → Bool
  | none, none => true
  | _, _ => false

/-- `Model.__eq__` (data_model.py lines 77-101), translated line by line;
in particular line 94 compares `self.taxon` with `other.id`. -/
def Model.pyEq (a b : Model) : Bool :=
  a.id == b.id
    && a.name == b.name
    && a.file == b.file
    && a.image == b.image
    && a.description == b.description
    && a.format == b.format
    && a.framework == b.framework
    && pyEqTaxonId a.taxon b.id
    && sortedEqBy (fun s => [s]) (fun x y => x == y) a.tags b.tags
    && sortedEqBy Identifier.sortKey (fun x y => x == y) a.identifiers b.identifiers
    && sortedEqBy JournalReference.sortKey (fun x y => x == y) a.refs b.refs
    && sortedEqBy Person.sortKey (fun x y => x == y) a.authors b.authors
    && a.license == b.license
    && sortedEqBy Parameter.sortKey Parameter.pyEq a.parameters b.parameters
    && sortedEqBy Variable.sortKey Variable.pyEq a.«variables» b.«variables»

/-- `AlgorithmParameter` of
`Biosimulations_format_utils/simulation/data_model.py` (lines 378-475). -/
structure AlgorithmParameter where
  id : Option String
  name : Option String
  type : Option ValType
  value : Json
  recommendedRange : List Json
  kisaoId : Option String

/-- `AlgorithmParameter.from_json` (simulation/data_model.py lines 439-456). -/
def AlgorithmParameter.fromJson (val : Json) : AlgorithmParameter :=
  { id := (val.get "id").asStr?
    name := (val.get "name").asStr?
    type := if (val.get "type").truthy then ValType.fromValue (((val.get "type").asStr?).getD "") else none
    value := val.get "value"
    recommendedRange := (val.get "recommendedRange").items
    kisaoId := (val.get "kisaoId").asStr? }

/-- `Algorithm` of `Biosimulations_format_utils/simulation/data_model.py`
(lines 287-375). -/
structure Algorithm where
  id : Option String
  name : Option String
  kisaoId : Option String
  synonymousKisaoIds : List String
  modelingFrameworks : List OntologyTerm
  modelFormats : List Format
  parameters : List AlgorithmParameter

/-- `Algorithm.from_json` (simulation/data_model.py lines 357-375). -/
def Algorithm.fromJson (val : Json) : Algorithm :=
  { id := (val.get "id").asStr?
    name := (val.get "name").asStr?
    kisaoId := (val.get "kisaoId").asStr?
    synonymousKisaoIds := (val.get "synonymousKisaoIds").strItems
    modelingFrameworks := ((val.get "modelingFrameworks").items).map OntologyTerm.fromJson
    modelFormats := ((val.get "modelFormats").items).map Format.fromJson
    parameters := ((val.get "parameters").items).map AlgorithmParameter.fromJson }

/-- The parameter held by a `ParameterChange`: a model `Parameter` or an
`AlgorithmParameter`, chosen by the `ParameterType` argument of
`ParameterChange.from_json`. -/
inductive ChangedParameter where
  | modelParam (p : Parameter)
  | algorithmParam (p : AlgorithmParameter)

/-- `ParameterChange` of
`Biosimulations_format_utils/simulation/data_model.py` (lines 478-545). -/
structure ParameterChange where
  parameter : Option ChangedParameter
  value : Json

/-- `ParameterChange.from_json` for model parameters (simulation/
data_model.py lines 519-533, with `ParameterType = ModelParameter`). -/
def ParameterChange.fromJsonModel (val : Json) : ParameterChange :=
  { parameter := if (val.get "parameter").truthy
      then some (.modelParam (Parameter.fromJson (val.get "parameter"))) else none
    value := val.get "value" }

/-- `ParameterChange.from_json` for algorithm parameters (simulation/
data_model.py lines 519-533, with `ParameterType = AlgorithmParameter`). -/
def ParameterChange.fromJsonAlgorithm (val : Json) : ParameterChange :=
  { parameter := if (val.get "parameter").truthy
      then some (.algorithmParam (AlgorithmParameter.fromJson (val.get "parameter"))) else none
    value := val.get "value" }

/-- The fields of the base `Simulation` class of
`Biosimulations_format_utils/simulation/data_model.py` (lines 46-187). -/
structure SimulationCore where
  id : Option String
  name : Option String
  image : Option RemoteFile
  description : Option String
  tags : List String
  identifiers : List Identifier
  references : List JournalReference
  authors : List Person
  license : Option License
  format : Option Format
  model : Option Model
  modelParameterChanges : List ParameterChange
  algorithm : Option Algorithm
  algorithmParameterChanges : List ParameterChange

/-- The `else` branch of `Simulation.from_json` (simulation/data_model.py
lines 169-187), which populates the fields of the base class. -/
def SimulationCore.fromJson (val : Json) : SimulationCore :=
  { id := (val.get "id").asStr?
    name := (val.get "name").asStr?
    image := if (val.get "image").truthy then some (RemoteFile.fromJson (val.get "image")) else none
    description := (val.get "description").asStr?
    tags := (val.get "tags").strItems
    identifiers := ((val.get "identifiers").items).map Identifier.fromJson
    references := ((val.get "references").items).map JournalReference.fromJson
    authors := ((val.get "authors").items).map Person.fromJson
    license := if (val.get "license").truthy then License.fromValue (((val.get "license").asStr?).getD "") else none
    format := if (val.get "format").truthy then some (Format.fromJson (val.get "format")) else none
    model := if (val.get "model").truthy then some (Model.fromJson (val.get "model")) else none
    modelParameterChanges := ((val.get "modelParameterChanges").items).map ParameterChange.fromJsonModel
    algorithm := if (val.get "algorithm").truthy then some (Algorithm.fromJson (val.get "algorithm")) else none
    algorithmParameterChanges := ((val.get "algorithmParameterChanges").items).map ParameterChange.fromJsonAlgorithm }

/-- `TimecourseSimulation` (simulation/data_model.py lines 190-279): the
base fields plus the four time-course fields, which `from_json` stores as
read (`val.get(..., None)`), hence `Json` here. -/
structure TimecourseSimulation where
  core : SimulationCore
  startTime : Json
  outputStartTime : Json
  endTime : Json
  numTimePoints : Json

/-- `TimecourseSimulation.from_json` (simulation/data_model.py lines
264-279): the base-class deserialization followed by assignment of the
four time-course fields. -/
def TimecourseSimulation.fromJson (val : Json) : TimecourseSimulation :=
  { core := SimulationCore.fromJson val
    startTime := val.get "startTime"
    outputStartTime := val.get "outputStartTime"
    endTime := val.get "endTime"
    numTimePoints := val.get "numTimePoints" }

/-- The runtime class of the object `Simulation.from_json` returns: the
base class or one of its two subclasses. -/
inductive SimObj where
  | base (s : SimulationCore)
  | timecourse (t : TimecourseSimulation)
  | steadyState (s : SimulationCore)

/-- `Simulation.from_json` called on the base class (simulation/
data_model.py lines 152-167): the subtype is chosen by which of
`startTime`/`endTime`/`numTimePoints` are present in the dict (`in val`,
regardless of the stored values); `SteadyStateSimulation` adds no fields
and inherits the base implementation, which runs the `else` branch. -/
def Simulation.fromJson (val : Json) : SimObj :=
  if val.hasKey "startTime" || val.hasKey "endTime" || val.hasKey "numTimePoints" then
    .timecourse (TimecourseSimulation.fromJson val)
  else
    .steadyState (SimulationCore.fromJson val)

/-- `SbmlBiomodelReader._calc_recommended_param_range` (sbml.py lines
741-759), with the default folds `zero_fold = non_zero_fold = 10.` inlined
(every call site uses the defaults): `[0., 10.]` for a zero value, else
`[value * 10**-1, value * 10]`. -/
def calcRecommendedParamRange (value : Rat) : List Rat :=
  if value = 0 then
    [0, 10]
  else
    [value * (10 : Rat)⁻¹, value * 10]

/-- Replacement of the leftmost-first, non-overlapping occurrences of a
pattern in a character list (the semantics of Python `str.replace`),
driven by a fuel argument bounding the number of steps so that the
recursion is structural. -/
def pyReplaceFuel (pat sub : List Char) : Nat → List Char → List Char
  | 0, l => l
  | _ + 1, [] => []
  | n + 1, c :: cs =>
      if pat.isPrefixOf (c :: cs) then
        sub ++ pyReplaceFuel pat sub n ((c :: cs).drop pat.length)
      else
        c :: pyReplaceFuel pat sub n cs

/-- Python `s.replace(pat, sub)` for a non-empty pattern (the only way the
code uses it). -/
def pyReplace (s pat sub : String) : String :=
  if pat.isEmpty then s
  else String.mk (pyReplaceFuel pat.toList sub.toList s.length s.toList)

/-- `SbmlBiomodelReader._format_unit_def` (sbml.py lines 722-739). The
libsbml unit machinery is external: its `printUnits` output is carried as
an optional pre-rendered string (`none` for a missing unit definition);
`pretty` is the external `pretty_print_units` helper. -/
def formatUnitDef (pretty : String → String) : Option String → Option String
  | none => none
  | some s => if s = "indeterminable" then none else some (pretty (pyReplace s ", " " * "))

/-- An SBML global or local kinetic-law parameter, with the fields
`_read_parameters` reads from libsbml (`getId`, `getName`,
`getElementName`, `getValue`, `getDerivedUnitDefinition`); libsbml returns
the empty string for an unset id or name. -/
structure SbmlParameter where
  id : String
  name : String
  elementName : String
  value : Rat
  derivedUnits : Option String

/-- An SBML reaction: id, name, XML namespace (`getPrefix`, empty when in
the default namespace), element name, and the kinetic law's local
parameters when a kinetic law is present. -/
structure SbmlReaction where
  id : String
  name : String
  xmlNs : String
  elementName : String
  kineticLaw : Option (List SbmlParameter)

/-- An SBML compartment: `multiIsType` is `getPlugin('multi')` being
present together with its `getIsType()` flag; `size` is
`isSetSize`/`getSize`. -/
structure SbmlCompartment where
  id : String
  name : String
  multiIsType : Option Bool
  size : Option Rat
  derivedUnits : Option String

/-- An SBML species with the fields `_read_parameters` reads:
`isSetInitialAmount`/`getInitialAmount` and likewise for the
concentration, the substance units id, and the containing compartment. -/
structure SbmlSpecies where
  id : String
  name : String
  initialAmount : Option Rat
  initialConcentration : Option Rat
  substanceUnits : String
  compartment : String

/-- A libsbml `ASTNode` as far as `_read_constant_from_math` inspects it:
an integer constant, a real constant (`AST_REAL`/`AST_REAL_E`), a rational
constant, or any other expression. -/
inductive SbmlMath where
  | integer (v : Int)
  | real (v : Rat)
  | rationalNum
  | other
deriving DecidableEq, Repr

/-- An SBML initial assignment (`getSymbol`, `getMath`). -/
structure SbmlInitialAssignment where
  symbol : String
  math : SbmlMath

/-- An SBML rule (`isScalar`, `getVariable`, `getMath`). The Python
attribute `variable` is a reserved word in Lean, hence `varId`. -/
structure SbmlRule where
  isScalar : Bool
  varId : String
  math : SbmlMath

/-- An fbc flux objective (`getReaction`, `getCoefficient`). -/
structure SbmlFluxObjective where
  reaction : String
  coefficient : Rat

/-- An fbc objective (`getId`, `getName`, `getListOfFluxObjectives`). -/
structure SbmlObjective where
  id : String
  name : String
  fluxObjectives : List SbmlFluxObjective

/-- The fbc plugin of a model (`getActiveObjective`, which libsbml returns
as `None` when no objective is active). -/
structure SbmlFbcPlugin where
  activeObjective : Option SbmlObjective

/-- A qualitative species of the qual package (`getId`, `getName`,
`getInitialLevel`, `isSetMaxLevel`/`getMaxLevel`). -/
structure SbmlQualSpecies where
  id : String
  name : String
  initialLevel : Int
  maxLevel : Option Int

/-- What `getElementBySId` exposes of an SBML element to
`_read_parameters`: its name and derived units. -/
structure SbmlElementInfo where
  name : String
  derivedUnits : Option String

/-- An SBML model as read by `SbmlBiomodelReader._read_parameters`:
the element lists it iterates, the two optional package plugins, the
`getElementBySId` lookup table, the model-level substance units id, and
the format version string `L{level}V{version}` that `_read_format` put on
the model. -/
structure SbmlModel where
  parameters : List SbmlParameter
  reactions : List SbmlReaction
  compartments : List SbmlCompartment
  species : List SbmlSpecies
  initialAssignments : List SbmlInitialAssignment
  rules : List SbmlRule
  fbc : Option SbmlFbcPlugin
  qual : Option (List SbmlQualSpecies)
  elementsById : List (String × SbmlElementInfo)
  substanceUnits : String
  formatVersion : String

/-- A parameter record produced by the SBML reader (`BiomodelParameter` of
the biomodel `data_model.py`; same shape as `Parameter` of §3 of the
spec). `_read_parameters` always fills target/group/id/name with strings,
leaves `description` as `None`, `identifiers` empty. -/
structure BiomodelParameter where
  target : String
  group : String
  id : String
  name : String
  description : Option String
  identifiers : List Identifier
  type : ValType
  value : Json
  recommendedRange : List Json
  units : Option String

/-- A key of the `parameters` dict built by `_read_parameters`: a plain
string, or the `(rxn_id, param_id)` tuple used for local kinetic-law
parameters. -/
inductive PKey where
  | s (v : String)
  | pair (rxn param : String)
deriving DecidableEq, Repr

/-- The `parameters` dict of `_read_parameters`: an insertion-ordered
association list, as a Python dict. -/
abbrev PDict := List (PKey × BiomodelParameter)

/-- Python dict assignment `parameters[k] = v`: replace in place when the
key is present (keeping its position), else append. -/
def dinsert (k : PKey) (v : BiomodelParameter) : PDict → PDict
  | [] => [(k, v)]
  | kv :: rest => if kv.1 = k then (k, v) :: rest else kv :: dinsert k v rest

/-- Python dict `parameters.pop(k)`: remove the binding of `k` (a dict
holds at most one binding per key; the recursion would also drop any
duplicates an ill-formed association list might hold). -/
def dpop (k : PKey) : PDict → PDict
  | [] => []
  | kv :: rest => if kv.1 = k then dpop k rest else kv :: dpop k rest

/-- Python dict lookup. -/
def dlookup (k : PKey) : PDict → Option BiomodelParameter
  | [] => none
  | kv :: rest => if kv.1 = k then some kv.2 else dlookup k rest

/-- Python `k in parameters`. -/
def dhasKey (k : PKey) (d : PDict) : Bool :=
  (dlookup k d).isSome

/-- The keys of the dict, in insertion order. -/
def dkeys (d : PDict) : List PKey :=
  d.map Prod.fst

/-- Python `parameters.values()`, in insertion order. -/
def dvalues (d : PDict) : List BiomodelParameter :=
  d.map Prod.snd

/-- The level digit of a format version string: `int(model.format.version[1])`
for a version of the form `L{level}V{version}`. -/
def levelDigit (v : String) : Nat :=
  ((v.toList.drop 1).headD '0').toNat - 48

/-- `SbmlBiomodelReader._read_parameter` (sbml.py lines 440-512), which
reads one global or local kinetic-law parameter. The caller passes the
reaction for a local parameter (`rxn_sbml`/`rxn_id`/`rxn_name` are all
derived from it). `assert param_sbml.getId()` raises on an empty id. -/
def readParameter (pretty : String → String) (formatVersion : String)
    (rxn : Option SbmlReaction) (p : SbmlParameter) : Except String BiomodelParameter :=
  if p.id = "" then .error "AssertionError: the parameter does not have an id" else
  let name0 := if p.name = "" then p.id else p.name
  match rxn with
  | none =>
      .ok { target := "/sbml:sbml/sbml:model/sbml:listOfParameters/sbml:parameter[@id='"
              ++ p.id ++ "']/@value"
            group := "Other global parameters"
            id := p.id
            name := name0
            description := none
            identifiers := []
            type := .float
            value := .jnum p.value
            recommendedRange := (calcRecommendedParamRange p.value).map Json.jnum
            units := formatUnitDef pretty p.derivedUnits }
  | some r =>
      let ns := if r.xmlNs = "" then "sbml" else r.xmlNs
      let listName := if 3 ≤ levelDigit formatVersion
        then "sbml:listOfLocalParameters" else "sbml:listOfParameters"
      let rxnName : Option String := if r.name = "" then none else some r.name
      -- param.name was set to `name or id` above and the id is non-empty, so the
      -- final `param.name or param.id` on line 510 is just that name
      .ok { target := "/sbml:sbml/sbml:model/sbml:listOfReactions/" ++ ns ++ ":"
              ++ r.elementName ++ "[@id='" ++ r.id ++ "']/sbml:kineticLaw/" ++ listName
              ++ "/sbml:" ++ p.elementName ++ "[@id='" ++ p.id ++ "']/@value"
            group := (rxnName.getD r.id) ++ " rate constants"
            id := r.id ++ "/" ++ p.id
            name := (rxnName.getD r.id) ++ ": " ++ name0
            description := none
            identifiers := []
            type := .float
            value := .jnum p.value
            recommendedRange := (calcRecommendedParamRange p.value).map Json.jnum
            units := formatUnitDef pretty p.derivedUnits }

/-- `SbmlBiomodelReader._read_constant_from_math` (sbml.py lines 667-692):
the type and constant value of a mathematical expression, or nothing for
a non-constant (`(None, None)`); rational constants are unsupported. The
result also carries the value as a rational, the view
`_calc_recommended_param_range` takes of it. -/
def constFromMath : SbmlMath → Option (ValType × Rat × Json)
  | .integer v => some (.integer, (v : Rat), .jint v)
  | .real v => some (.float, v, .jnum v)
  | .rationalNum => none
  | .other => none

/-- The global-parameters pass of `_read_parameters` (sbml.py lines
203-205). -/
def insertGlobals (pretty : String → String) (formatVersion : String) :
    List SbmlParameter → PDict → Except String PDict
  | [], d => .ok d
  | p :: ps, d => do
      let bp ← readParameter pretty formatVersion none p
      insertGlobals pretty formatVersion ps (dinsert (.s p.id) bp d)

/-- The inner loop of the local-parameters pass (sbml.py lines 214-217):
`assert rxn_id` runs inside the loop, before each insertion. -/
def insertLocalParams (pretty : String → String) (formatVersion : String)
    (r : SbmlReaction) : List SbmlParameter → PDict → Except String PDict
  | [], d => .ok d
  | p :: ps, d =>
      if r.id = "" then .error "AssertionError: a reaction does not have an id"
      else do
        let bp ← readParameter pretty formatVersion (some r) p
        insertLocalParams pretty formatVersion r ps (dinsert (.pair r.id p.id) bp d)

/-- The local-parameters pass of `_read_parameters` (sbml.py lines
207-217): reactions without a kinetic law are skipped. -/
def insertLocals (pretty : String → String) (formatVersion : String) :
    List SbmlReaction → PDict → Except String PDict
  | [], d => .ok d
  | r :: rs, d =>
      match r.kineticLaw with
      | none => insertLocals pretty formatVersion rs d
      | some ps => do
          let d' ← insertLocalParams pretty formatVersion r ps d
          insertLocals pretty formatVersion rs d'

/-- The compartment-sizes pass of `_read_parameters` (sbml.py lines
219-246): compartments with `multi:isType` true or without a set size are
skipped; `assert comp_id` raises on an empty id. -/
def insertComps (pretty : String → String) :
    List SbmlCompartment → PDict → Except String PDict
  | [], d => .ok d
  | c :: cs, d =>
      if c.multiIsType.getD false then insertComps pretty cs d
      else match c.size with
      | none => insertComps pretty cs d
      | some sz =>
          if c.id = "" then .error "AssertionError: a compartment does not have an id"
          else
            let compName := if c.name = "" then c.id else c.name
            let p : BiomodelParameter :=
              { target := "/sbml:sbml/sbml:model/sbml:listOfCompartments/sbml:compartment[@id='"
                  ++ c.id ++ "']/@size"
                group := "Initial compartment sizes"
                id := "init_size_" ++ c.id
                name := "Initial size of " ++ compName
                description := none
                identifiers := []
                type := .float
                value := .jnum sz
                recommendedRange := (calcRecommendedParamRange sz).map Json.jnum
                units := formatUnitDef pretty c.derivedUnits }
            insertComps pretty cs (dinsert (.s c.id) p d)

/-- The string interpolation Python applies to an optional unit string
(`'{}'.format(None)` prints `None`). -/
def optUnitsStr : Option String → String
  | some s => s
  | none => "None"

/-- The species pass of `_read_parameters` (sbml.py lines 248-297).
Species with neither a set initial amount nor concentration are skipped;
otherwise `species_id` is (re)bound before the entry is stored, so the
last binding is threaded out of the pass (it is what the fbc pass will
read). Unit lookup failures fall back to the raw units id (the logged
error is a side effect not modelled); the compartment lookup of the
concentration branch is evaluated lazily inside the units truthiness
test, as in the source. -/
def insertSpecies (pretty : String → String) (units : List (String × String))
    (modelSubstanceUnits : String) (comps : List SbmlCompartment) :
    List SbmlSpecies → PDict → Option String → Except String (PDict × Option String)
  | [], d, lastSp => .ok (d, lastSp)
  | sp :: sps, d, lastSp =>
      if !(sp.initialAmount.isSome || sp.initialConcentration.isSome) then
        insertSpecies pretty units modelSubstanceUnits comps sps d lastSp
      else if sp.id = "" then .error "AssertionError: a species does not have an id"
      else
        let speciesName := if sp.name = "" then sp.id else sp.name
        let rawUnits := if sp.substanceUnits = "" then modelSubstanceUnits else sp.substanceUnits
        let lookedUp := ((units.find? (fun kv => kv.1 = rawUnits)).map Prod.snd).getD ""
        let sus := if lookedUp = "" then rawUnits else lookedUp
        let step : Except String BiomodelParameter :=
          match sp.initialAmount with
          | some amt =>
              .ok { target := "/sbml:sbml/sbml:model/sbml:listOfSpecies/sbml:species[@id='"
                      ++ sp.id ++ "']/@initialAmount"
                    group := "Initial species amounts/concentrations"
                    id := "init_amount_" ++ sp.id
                    name := "Initial amount of " ++ speciesName
                    description := none
                    identifiers := []
                    type := .float
                    value := .jnum amt
                    recommendedRange := (calcRecommendedParamRange amt).map Json.jnum
                    units := some sus }
          | none =>
              let conc := sp.initialConcentration.getD 0
              let unitsRes : Except String (Option String) :=
                if sus ≠ "" then
                  match comps.find? (fun c => c.id = sp.compartment) with
                  | none => .error "AttributeError: _get_compartment returned None"
                  | some comp =>
                      .ok (some (pretty ("(" ++ sus ++ ") / ("
                        ++ optUnitsStr (formatUnitDef pretty comp.derivedUnits) ++ ")")))
                else .ok none
              match unitsRes with
              | .error e => .error e
              | .ok u =>
                  .ok { target := "/sbml:sbml/sbml:model/sbml:listOfSpecies/sbml:species[@id='"
                          ++ sp.id ++ "']/@initialConcentration"
                        group := "Initial species amounts/concentrations"
                        id := "init_concentration_" ++ sp.id
                        name := "Initial concentration of " ++ speciesName
                        description := none
                        identifiers := []
                        type := .float
                        value := .jnum conc
                        recommendedRange := (calcRecommendedParamRange conc).map Json.jnum
                        units := u }
        match step with
        | .error e => .error e
        | .ok p =>
            insertSpecies pretty units modelSubstanceUnits comps sps
              (dinsert (.s sp.id) p d) (some sp.id)

/-- The initial-assignments pass of `_read_parameters` (sbml.py lines
299-327): assignments whose math is not a constant are skipped; otherwise
the symbol is resolved with `getElementBySId` (an `AttributeError` if it
is absent, since `.getName()` is then called on `None`), and the entry is
stored under `"init_assignment_" + symbol`. -/
def insertInitAssigns (pretty : String → String)
    (elems : List (String × SbmlElementInfo)) :
    List SbmlInitialAssignment → PDict → Except String PDict
  | [], d => .ok d
  | a :: as, d =>
      match constFromMath a.math with
      | none => insertInitAssigns pretty elems as d
      | some (ty, rv, jv) =>
          match (elems.find? (fun kv => kv.1 = a.symbol)).map Prod.snd with
          | none => .error "AttributeError: getElementBySId returned None"
          | some el =>
              let p : BiomodelParameter :=
                { target := "/sbml:sbml/sbml:model/sbml:listOfInitialAssignments/sbml:initialAssignment[@symbol='"
                    ++ a.symbol ++ "']/mathml:math/mathml:cn/text"
                  group := "Initial assignments"
                  id := "init_assignment_" ++ a.symbol
                  name := "Initial assignment of " ++ (if el.name = "" then a.symbol else el.name)
                  description := none
                  identifiers := []
                  type := ty
                  value := jv
                  recommendedRange := (calcRecommendedParamRange rv).map Json.jnum
                  units := formatUnitDef pretty el.derivedUnits }
              insertInitAssigns pretty elems as
                (dinsert (.s ("init_assignment_" ++ a.symbol)) p d)

/-- The assignment-rules pass of `_read_parameters` (sbml.py lines
329-358): scalar rules with a constant math only; the entry is stored
under `"assignment_" + variable`. -/
def insertRules (pretty : String → String)
    (elems : List (String × SbmlElementInfo)) :
    List SbmlRule → PDict → Except String PDict
  | [], d => .ok d
  | r :: rs, d =>
      if !r.isScalar then insertRules pretty elems rs d
      else match constFromMath r.math with
      | none => insertRules pretty elems rs d
      | some (ty, rv, jv) =>
          match (elems.find? (fun kv => kv.1 = r.varId)).map Prod.snd with
          | none => .error "AttributeError: getElementBySId returned None"
          | some el =>
              let p : BiomodelParameter :=
                { target := "/sbml:sbml/sbml:model/sbml:listOfRules/sbml:assignmentRule[@variable='"
                    ++ r.varId ++ "']/mathml:math/mathml:cn/text"
                  group := "Assignments"
                  id := "assignment_" ++ r.varId
                  name := "Assignment of " ++ (if el.name = "" then r.varId else el.name)
                  description := none
                  identifiers := []
                  type := ty
                  value := jv
                  recommendedRange := (calcRecommendedParamRange rv).map Json.jnum
                  units := formatUnitDef pretty el.derivedUnits }
              insertRules pretty elems rs (dinsert (.s ("assignment_" ++ r.varId)) p d)

/-- The flux-objective loop of the fbc pass of `_read_parameters`
(sbml.py lines 368-392). `lastSp` is the leftover `species_id` binding of
the species pass of lines 248-297: line 373 stores every flux-objective
entry under `parameters[species_id]`, so all entries of this loop go to
that single key (a `NameError` if no species bound it). -/
def insertFluxObjectives (reactions : List SbmlReaction) (objId objName : String)
    (lastSp : Option String) : List SbmlFluxObjective → PDict → Except String PDict
  | [], d => .ok d
  | fo :: fos, d =>
      match reactions.find? (fun r => r.id = fo.reaction) with
      | none => .error "AttributeError: _get_reaction returned None"
      | some r =>
          let rxnName := if r.name = "" then fo.reaction else r.name
          match lastSp with
          | none => .error "NameError: name species_id is not defined"
          | some sid =>
              let p : BiomodelParameter :=
                { target := "/sbml:sbml/sbml:model/fbc:listOfObjectives/fbc:objective[@fbc:id='"
                    ++ objId ++ "']/fbc:listOfFluxObjectives/fbc:fluxObjective[@fbc:reaction='"
                    ++ fo.reaction ++ "']/@fbc:coefficient"
                  group := "Flux objective coefficients"
                  id := objId ++ "/" ++ fo.reaction
                  name := "Coefficient of " ++ objName ++ " of " ++ rxnName
                  description := none
                  identifiers := []
                  type := .float
                  value := .jnum fo.coefficient
                  recommendedRange := (calcRecommendedParamRange fo.coefficient).map Json.jnum
                  units := some "dimensionless" }
              insertFluxObjectives reactions objId objName lastSp fos (dinsert (.s sid) p d)

/-- The fbc pass of `_read_parameters` (sbml.py lines 360-392):
`assert obj_sbml` raises when there is no active objective. -/
def insertFbc (fbc : Option SbmlFbcPlugin) (reactions : List SbmlReaction)
    (lastSp : Option String) (d : PDict) : Except String PDict :=
  match fbc with
  | none => .ok d
  | some plugin =>
      match plugin.activeObjective with
      | none => .error "AssertionError: there is no active objective"
      | some obj =>
          let objName := if obj.name = "" then obj.id else obj.name
          insertFluxObjectives reactions obj.id objName lastSp obj.fluxObjectives d

/-- The qual pass of `_read_parameters` (sbml.py lines 394-422): each
qualitative species is stored under its own id; the recommended range is
`[0, max_level]` with `max_level` defaulting to `max(1, init_level)`. -/
def insertQualSpecies : List SbmlQualSpecies → PDict → PDict
  | [], d => d
  | qs :: qss, d =>
      let maxLevel := qs.maxLevel.getD (max 1 qs.initialLevel)
      let p : BiomodelParameter :=
        { target := "/sbml:sbml/sbml:model/qual:listOfQualitativeSpecies/qual:qualitativeSpecies[@qual:id='"
            ++ qs.id ++ "']/@qual:initialLevel"
          group := "Initial species levels"
          id := "init_level_" ++ qs.id
          name := "Initial level of " ++ (if qs.name = "" then qs.id else qs.name)
          description := none
          identifiers := []
          type := .integer
          value := .jint qs.initialLevel
          recommendedRange := [Json.jint 0, Json.jint maxLevel]
          units := some "dimensionless" }
      insertQualSpecies qss (dinsert (.s qs.id) p d)

/-- The first removal loop of `_read_parameters` (sbml.py lines 424-429):
pop the variable of every scalar rule that is a key of the dict. -/
def popRules : List SbmlRule → PDict → PDict
  | [], d => d
  | r :: rs, d =>
      popRules rs (if r.isScalar then
        (if (dlookup (.s r.varId) d).isSome then dpop (.s r.varId) d else d) else d)

/-- The second removal loop of `_read_parameters` (sbml.py lines
431-434): pop the symbol of every initial assignment that is a key. -/
def popInits : List SbmlInitialAssignment → PDict → PDict
  | [], d => d
  | a :: as, d =>
      popInits as (if (dlookup (.s a.symbol) d).isSome then dpop (.s a.symbol) d else d)

/-- The removal second pass of `_read_parameters` (sbml.py lines
424-434). -/
def removeAssigned (m : SbmlModel) (d : PDict) : PDict :=
  popInits m.initialAssignments (popRules m.rules d)

/-- The collection passes of `_read_parameters` (sbml.py lines 201-422),
in source order, threading the dict and the last `species_id` binding. -/
def collectParameters (pretty : String → String) (units : List (String × String))
    (m : SbmlModel) : Except String (PDict × Option String) :=
  match insertGlobals pretty m.formatVersion m.parameters [] with
  | .error e => .error e
  | .ok d1 =>
  match insertLocals pretty m.formatVersion m.reactions d1 with
  | .error e => .error e
  | .ok d2 =>
  match insertComps pretty m.compartments d2 with
  | .error e => .error e
  | .ok d3 =>
  match insertSpecies pretty units m.substanceUnits m.compartments m.species d3 none with
  | .error e => .error e
  | .ok (d4, lastSp) =>
  match insertInitAssigns pretty m.elementsById m.initialAssignments d4 with
  | .error e => .error e
  | .ok d5 =>
  match insertRules pretty m.elementsById m.rules d5 with
  | .error e => .error e
  | .ok d6 =>
  match insertFbc m.fbc m.reactions lastSp d6 with
  | .error e => .error e
  | .ok d7 => .ok (insertQualSpecies (m.qual.getD []) d7, lastSp)

/-- `SbmlBiomodelReader._read_parameters` up to its `parameters` dict
(sbml.py lines 184-434): the collection passes followed by the removal
second pass. -/
def readParametersDict (pretty : String → String) (units : List (String × String))
    (m : SbmlModel) : Except String PDict :=
  (collectParameters pretty units m).map (fun x => removeAssigned m x.1)

/-- `SbmlBiomodelReader._read_parameters` (sbml.py lines 184-438): the
returned collection is `parameters.values()`. -/
def readParameters (pretty : String → String) (units : List (String × String))
    (m : SbmlModel) : Except String (List BiomodelParameter) :=
  (readParametersDict pretty units m).map dvalues

/-- The modeling framework chosen by `_read_metadata` (the model stores
the corresponding `BiomodelingFramework` member's ontology-term value;
the member itself is what matters here). -/
inductive BiomodelingFramework where
  | flux_balance
  | logical
  | non_spatial_continuous
  | non_spatial_discrete
deriving DecidableEq, Repr

/-- The inputs of the framework-determination block of
`SbmlBiomodelReader._read_metadata` (sbml.py lines 113-144): the package
names of the model's plugins, and what the comp checks of lines 125-132
read from the document and model. -/
structure SbmlDoc where
  plugins : List String
  hasDocCompPlugin : Bool
  docCompModelDefs : Nat
  docCompExternalModelDefs : Nat
  hasModelCompPlugin : Bool
  modelCompSubmodels : Nat

/-- The supported SBML packages (sbml.py line 119). -/
def supportedPackages : List String :=
  ["annot", "comp", "fbc", "groups", "layout", "multi", "qual", "render", "req"]

/-- The framework-determination block of `_read_metadata` (sbml.py lines
113-144). The `packages` set is the deduplicated plugin names; the error
paths, in source order: unsupported packages, the two comp checks, and the
ambiguity check `len(packages & {fbc, multi, qual}) > 1`; then the
framework selection. Everything `_read_metadata` does around this block
(id/name assignment, annotation traversal, taxonomy lookup) neither raises
`BiomodelIoError` nor influences it. -/
def readMetadataFramework (d : SbmlDoc) : Except String BiomodelingFramework :=
  let packages := d.plugins.dedup
  let unsupported := packages.filter (fun p => !(supportedPackages.contains p))
  if !unsupported.isEmpty then
    .error ((String.intercalate ", " unsupported) ++ " package(s) are not supported")
  else if d.hasDocCompPlugin
      && (d.docCompModelDefs != 0 || d.docCompExternalModelDefs != 0) then
    .error "comp package is not supported"
  else if d.hasModelCompPlugin && (d.modelCompSubmodels != 0) then
    .error "comp package is not supported"
  else if 1 < (["fbc", "multi", "qual"].filter (fun p => packages.contains p)).length then
    .error "Unable to determine modeling framework"
  else if packages.contains "fbc" then .ok .flux_balance
  else if packages.contains "multi" then .ok .non_spatial_discrete
  else if packages.contains "qual" then .ok .logical
  else .ok .non_spatial_continuous

/-- `SimulationFormat` of the simulation `data_model.py`: the SED-ML and
SESSL members dispatched on by `write_simulation`/`read_simulation`. -/
inductive SimulationFormat where
  | sedml
  | sessl
deriving DecidableEq, Repr

/-- The enum member name, `format.name`. -/
def SimulationFormat.memberName : SimulationFormat → String
  | .sedml => "sedml"
  | .sessl => "sessl"

/-- The observable steps of a `write_simulation`/`read_simulation` call:
constructing the SED-ML writer/reader and running it on the file. The
SED-ML writer/reader themselves live in the `sedml.py` module missing
from src/; only their invocation is modelled. -/
inductive SimIoEvent where
  | constructedWriter
  | wroteFile (filename : String)
  | constructedReader
  | readFile (filename : String)
deriving DecidableEq, Repr

/-- `write_simulation` (simulation/__init__.py lines 16-33): a
`NotImplementedError` for any format other than SED-ML, raised before a
writer is constructed or the file is touched (an error result carries no
events); otherwise `SedMlSimulationWriter().run(sim, filename, ...)`. -/
def writeSimulation (format : SimulationFormat) (filename : String) :
    Except String (List SimIoEvent) :=
  if format = .sedml then
    .ok [.constructedWriter, .wroteFile filename]
  else
    .error ("NotImplementedError: Simulation experiment format "
      ++ format.memberName ++ " is not supported")

/-- `read_simulation` (simulation/__init__.py lines 36-56): the same
dispatch for the SED-ML reader. -/
def readSimulation (format : SimulationFormat) (filename : String) :
    Except String (List SimIoEvent) :=
  if format = .sedml then
    .ok [.constructedReader, .readFile filename]
  else
    .error ("NotImplementedError: Simulation experiment format "
      ++ format.memberName ++ " is not supported")

/-- A file system state: paths mapped to byte contents (bytes as
naturals). -/
abbrev FileWorld := List (String × List Nat)

/-- `os.path.isfile` / reading a file's content. -/
def lookupFile (w : FileWorld) (path : String) : Option (List Nat) :=
  (w.find? (fun kv => kv.1 = path)).map Prod.snd

/-- Writing a file (create or overwrite). -/
def setFile (w : FileWorld) (path : String) (content : List Nat) : FileWorld :=
  if (w.find? (fun kv => kv.1 = path)).isSome then
    w.map (fun kv => if kv.1 = path then (path, content) else kv)
  else
    w ++ [(path, content)]

/-- `os.path.basename`: the part of the path after the last slash. -/
def basename (p : String) : String :=
  String.mk ((p.toList.reverse.takeWhile (fun c => c ≠ '/')).reverse)

/-- The observable external actions of `visualize_biomodel`: parsing the
model file with libsbml, the HTTP POST to MINERVA, and cropping the saved
image. -/
inductive VizEvent where
  | parsedModel (path : String)
  | postedToMinerva (body : List Nat)
  | croppedImage (path : String)
deriving DecidableEq, Repr

/-- The external services `visualize_biomodel` calls, abstracted:
libsbml parse + layout/unit removal + re-serialization (`correctModel`,
taking the two removal flags), the MINERVA endpoint's HTTP status and
response content for a posted body, and the `crop_image` helper. -/
structure MinervaSvc where
  correctModel : List Nat → Bool → Bool → List Nat
  minervaStatus : List Nat → Nat
  minervaContent : List Nat → List Nat
  crop : List Nat → List Nat

/-- `visualize_biomodel` (sbml.py lines 818-877). When the image file
already exists the whole body under `if not os.path.isfile(img_filename)`
is skipped — nothing is parsed, posted or written; either way the function
returns `RemoteFile(name=basename(img_filename), type='image/png',
size=getsize(img_filename))` over the resulting file system. A non-2xx
MINERVA response raises `BiomodelIoError` (`raise_for_status` raises for
status 400 and above). -/
def visualizeBiomodel (svc : MinervaSvc) (modelFilename imgFilename : String)
    (removeLayouts removeUnits : Bool) (w : FileWorld) :
    Except String (RemoteFile × FileWorld × List VizEvent) :=
  let step : Except String (FileWorld × List VizEvent) :=
    match lookupFile w imgFilename with
    | some _ => .ok (w, [])
    | none =>
        match lookupFile w modelFilename with
        | none => .error "AttributeError: the model file could not be parsed"
        | some content =>
            let corrected := svc.correctModel content removeLayouts removeUnits
            if 400 ≤ svc.minervaStatus corrected then
              .error ("BiomodelIoError: Unable to generate image for "
                ++ basename modelFilename)
            else
              let respContent := svc.minervaContent corrected
              let w1 := setFile w imgFilename respContent
              let w2 := setFile w1 imgFilename (svc.crop respContent)
              .ok (w2, [.parsedModel modelFilename, .postedToMinerva corrected,
                .croppedImage imgFilename])
  match step with
  | .error e => .error e
  | .ok (w', evs) =>
      match lookupFile w' imgFilename with
      | none => .error "FileNotFoundError: getsize on a missing file"
      | some content =>
          .ok ({ name := some (basename imgFilename), type := some "image/png",
                 size := some (content.length : Int) }, w', evs)

/-- A Python exception as raised by the CI-actions module: the module's
own `ActionCaughtError`, or any other exception (name and message). -/
inductive PyExc where
  | actionCaughtError (msg : String)
  | otherError (name msg : String)
deriving DecidableEq, Repr

/-- The observable GitHub API actions of the CI-actions module. -/
inductive GhEvent where
  | postComment (issueNumber body : String)
  | addLabels (issueNumber : String) (labels : List String)
deriving DecidableEq, Repr

/-- Whether the GitHub API calls succeed (`response.raise_for_status()`
raises `requests.exceptions.HTTPError` otherwise). -/
structure GhSvc where
  commentPostOk : Bool
  labelPostOk : Bool

/-- The outcome of a CI action step: the GitHub calls it performed, and
normal return or a raised exception. -/
abbrev GhOutcome := List GhEvent × Except PyExc Unit

/-- `Action.add_comment_to_issue` (ci_actions/core.py lines 166-179):
POST the comment, then `raise_for_status`. The request is sent either
way. -/
def addCommentToIssue (svc : GhSvc) (issueNumber comment : String) : GhOutcome :=
  ([.postComment issueNumber comment],
   if svc.commentPostOk then .ok () else .error (.otherError "HTTPError" "comment post failed"))

/-- `Action.add_labels_to_issue` (ci_actions/core.py lines 139-151). -/
def addLabelsToIssue (svc : GhSvc) (issueNumber : String) (labels : List String) : GhOutcome :=
  ([.addLabels issueNumber labels],
   if svc.labelPostOk then .ok () else .error (.otherError "HTTPError" "label post failed"))

/-- Python `str.rstrip()`: drop trailing whitespace. -/
def rstrip (s : String) : String :=
  String.mk ((s.toList.reverse.dropWhile Char.isWhitespace).reverse)

/-- The comment formatting of `Action.add_error_comment_to_issue`
(ci_actions/core.py lines 192-196): a diff-style fenced block with every
line prefixed by `- `. -/
def formatErrorComment (comment : String) : String :=
  "```diff\n" ++ ("- " ++ (pyReplace (rstrip comment) "\n" "\n- ") ++ "\n") ++ "```\n"

/-- `Action.add_error_comment_to_issue` (ci_actions/core.py lines
181-197): post the formatted comment, then unconditionally
`raise ActionCaughtError(comment)` — it never returns normally (when the
POST itself fails, `HTTPError` propagates instead). -/
def addErrorCommentToIssue (svc : GhSvc) (issueNumber comment : String) : GhOutcome :=
  match addCommentToIssue svc issueNumber (formatErrorComment comment) with
  | (evs, .error e) => (evs, .error e)
  | (evs, .ok _) => (evs, .error (.actionCaughtError comment))

/-- `ActionErrorHandling._catch_errors` (ci_actions/core.py lines 32-48)
applied to a wrapped function whose own behavior is `func`: re-raise an
`ActionCaughtError` unchanged; for any other exception run
`Action.add_error_comment_to_issue`, then (if it were to return)
`Action.add_labels_to_issue(issue_number, ['Action error'])`, then
re-raise the original — an exception raised inside the `except` body
replaces the original and propagates, skipping the remaining lines. -/
def catchErrors (svc : GhSvc) (issueNumber errorMsg : String) (func : GhOutcome) : GhOutcome :=
  match func with
  | (evs, .ok u) => (evs, .ok u)
  | (evs, .error (.actionCaughtError m)) => (evs, .error (.actionCaughtError m))
  | (evs, .error (.otherError n m)) =>
      match addErrorCommentToIssue svc issueNumber errorMsg with
      | (evs2, .error e2) => (evs ++ evs2, .error e2)
      | (evs2, .ok _) =>
          match addLabelsToIssue svc issueNumber ["Action error"] with
          | (evs3, .error e3) => (evs ++ evs2 ++ evs3, .error e3)
          | (evs3, .ok _) => (evs ++ evs2 ++ evs3, .error (.otherError n m))

/-- The keys the removal second pass of `_read_parameters` targets: the
variables of scalar rules and the symbols of initial assignments. -/
def isRemovedKey (m : SbmlModel) (k : PKey) : Bool :=
  m.rules.any (fun r => r.isScalar && (k == PKey.s r.varId)) ||
  m.initialAssignments.any (fun a => k == PKey.s a.symbol)

/-- Building a dict by inserting a list of key-value pairs in order into an
empty dict (the abstract shape of the collection passes). -/
def insertAll (ps : List (PKey × BiomodelParameter)) : PDict :=
  ps.foldl (fun d kv => dinsert kv.1 kv.2 d) []

/-- A concrete `Model` exercising every field: non-None id and taxon and
non-empty list fields. -/
def c1Model : Model :=
  { id := some "model_1"
    name := some "model 1"
    file := some { name := some "model.xml", type := some "application/sbml+xml", size := some 102 }
    image := some { name := some "model.png", type := some "image/png", size := some 55 }
    description := some "a model"
    format := some { id := some "SBML", name := some "Systems Biology Markup Language",
                     version := some "L3V2", edamId := some "format_2585",
                     url := some "http://www.sbml.org", specUrl := some "http://identifiers.org/combine.specifications/sbml" }
    framework := some { ontology := some "SBO", id := some "0000293",
                        name := some "non-spatial continuous framework",
                        description := none, iri := none }
    taxon := some { id := some 9606, name := some "Homo sapiens" }
    tags := ["b", "a"]
    identifiers := [{ «namespace» := some "biomodels.db", id := some "BIOMD0000000924", url := none }]
    refs := [{ authors := some "Doe J", title := some "A model", journal := some "J Models",
               volume := some "4", issue := some "1", pages := some "1-10", year := some 2019 }]
    authors := [{ firstName := some "Jo", middleName := none, lastName := some "Doe" }]
    license := some .cc0
    parameters := [{ target := some "/sbml:sbml/sbml:model/sbml:listOfParameters/sbml:parameter[@id='k_1']/@value"
                     group := some "Other global parameters", id := some "k_1", name := some "k 1"
                     description := none, identifiers := [], type := some .float
                     value := Json.jnum 1, recommendedRange := Json.jarr [Json.jnum (1/10), Json.jnum 10]
                     units := some "g" }]
    «variables» := [{ target := some "/sbml:sbml/sbml:model/sbml:listOfSpecies/sbml:species[@id='s_1']"
                      group := some "Species amounts/concentrations", id := some "s_1", name := some "s 1"
                      description := none, identifiers := [], type := some .float, units := some "g" }] }

/-- A concrete SBML model with two species carrying set initial amounts
and an fbc active objective with two flux objectives (the shape claim C2
describes). -/
def c2Model : SbmlModel :=
  { parameters := []
    reactions := [{ id := "R1", name := "", xmlNs := "", elementName := "reaction", kineticLaw := none },
                  { id := "R2", name := "", xmlNs := "", elementName := "reaction", kineticLaw := none }]
    compartments := []
    species := [{ id := "S1", name := "", initialAmount := some 1, initialConcentration := none,
                  substanceUnits := "substance", compartment := "C" },
                { id := "S2", name := "", initialAmount := some 2, initialConcentration := none,
                  substanceUnits := "substance", compartment := "C" }]
    initialAssignments := []
    rules := []
    fbc := some
      { activeObjective := some
          { id := "obj1"
            name := ""
            fluxObjectives := [{ reaction := "R1", coefficient := 1 },
                               { reaction := "R2", coefficient := 2 }] } }
    qual := none
    elementsById := []
    substanceUnits := "substance"
    formatVersion := "L3V1" }

/-- The units lookup for `c2Model`. -/
def c2Units : List (String × String) := [("substance", "mole")]

/-- A concrete SBML model with a scalar assignment rule and an initial
assignment, both with constant math, targeting two global parameters. -/
def c5Model : SbmlModel :=
  { parameters := [{ id := "x", name := "", elementName := "parameter", value := 3, derivedUnits := none },
                   { id := "y", name := "", elementName := "parameter", value := 4, derivedUnits := none }]
    reactions := []
    compartments := []
    species := []
    initialAssignments := [{ symbol := "y", math := .integer 7 }]
    rules := [{ isScalar := true, varId := "x", math := .real (1/2) }]
    fbc := none
    qual := none
    elementsById := [("x", { name := "", derivedUnits := none }),
                     ("y", { name := "", derivedUnits := none })]
    substanceUnits := ""
    formatVersion := "L2V4" }

/-- The dict `_read_parameters` produces for `c5Model`. -/
def c5Dict : PDict :=
  match readParametersDict (fun s => s) [] c5Model with
  | .ok d => d
  | .error _ => []

/-- A concrete SBML model where a global parameter is literally named
`assignment_x` and both it and the parameter `x` are targets of scalar
assignment rules with constant math: the derived key `assignment_x` of the
rule on `x` collides with the removed id `assignment_x`. -/
def c5CexModel : SbmlModel :=
  { parameters := [{ id := "x", name := "", elementName := "parameter", value := 3, derivedUnits := none },
                   { id := "assignment_x", name := "", elementName := "parameter", value := 4, derivedUnits := none }]
    reactions := []
    compartments := []
    species := []
    initialAssignments := []
    rules := [{ isScalar := true, varId := "x", math := .integer 1 },
              { isScalar := true, varId := "assignment_x", math := .integer 2 }]
    fbc := none
    qual := none
    elementsById := [("x", { name := "", derivedUnits := none }),
                     ("assignment_x", { name := "", derivedUnits := none })]
    substanceUnits := ""
    formatVersion := "L2V4" }

/-- A GitHub service where every API call succeeds. -/
def c10Svc : GhSvc := { commentPostOk := true, labelPostOk := true }

/-- The default user-facing error message of `catch_errors`. -/
def c10Msg : String :=
  "Sorry. We encountered an unexpected error. Our team will review the error."

/-- A wrapped CI action that performs no GitHub call and raises a generic
exception. -/
def c10Func : GhOutcome := ([], .error (.otherError "ValueError" "invalid specification"))

/-- A concrete SBML document declaring exactly the fbc package, with no
comp content. -/
def c3Doc : SbmlDoc :=
  { plugins := ["fbc"]
    hasDocCompPlugin := false
    docCompModelDefs := 0
    docCompExternalModelDefs := 0
    hasModelCompPlugin := false
    modelCompSubmodels := 0 }

/-- C1: the claim says `Model.from_json(x.to_json()) == x` for every
`Model`, including models with non-None id, taxon and non-empty list
fields. For the fully-populated model `c1Model`, deserialization does
reconstruct the model field-for-field, yet `Model.__eq__` returns `False`:
line 94 of `model/data_model.py` compares `self.taxon` with `other.id`
(instead of `other.taxon`), so any model with a non-None id or taxon —
even compared against itself — fails the equality the claim asserts. -/
theorem model_roundtrip_reconstructs_but_pyEq_false :
    Model.fromJson (Model.toJson c1Model) = c1Model ∧
    Model.pyEq (Model.fromJson (Model.toJson c1Model)) c1Model = false ∧
    Model.pyEq c1Model c1Model = false :=
  ⟨rfl, rfl, rfl⟩

/-- C2: for the model `c2Model` — two species with set initial amounts and
an fbc active objective `obj1` with flux objectives for reactions `R1` and
`R2` — `_read_parameters` stores both flux-objective entries under the key
`"S2"` left in the species-loop variable (the id of the last species
processed), so they collapse to one mapping slot: the final dict has keys
`S1, S2` only, the `S2` slot holds the `obj1/R2` flux-objective parameter
(the last one written), exactly one flux-objective entry survives, and
both the `obj1/R1` entry and the overwritten `init_amount_S2` species
entry are gone from the returned collection. -/
theorem fluxObjectives_collapse_onto_last_species_key :
    (readParametersDict (fun s => s) c2Units c2Model).map (fun d =>
      (dkeys d,
       (dlookup (PKey.s "S2") d).map (fun p => (p.group, p.id)),
       ((dvalues d).filter (fun p => p.group == "Flux objective coefficients")).length,
       (dvalues d).map (fun p => p.id)))
    = .ok ([PKey.s "S1", PKey.s "S2"],
           some ("Flux objective coefficients", "obj1/R2"),
           1,
           ["init_amount_S1", "obj1/R2"]) := rfl

/-- C6: for every nonzero value `v`, `_calc_recommended_param_range`
returns exactly `[v/10, v*10]` (the first element computed as
`v * 10**-1`), and for negative `v` the first element exceeds the second
while both preserve the sign of `v`. -/
theorem calcRecommendedParamRange_nonzero (v : ℚ) (h : v ≠ 0) :
    calcRecommendedParamRange v = [v / 10, v * 10] ∧
    (v < 0 → v * 10 < v / 10 ∧ v / 10 < 0 ∧ v * 10 < 0) := by
  refine ⟨?_, fun hv => ⟨by linarith, by linarith, by linarith⟩⟩
  simp only [calcRecommendedParamRange, if_neg h]
  rw [div_eq_mul_inv]

/-- Witness for C6 at the concrete negative value `-2`. -/
theorem calcRecommendedParamRange_nonzero_check :
    ((-2 : ℚ) ≠ 0) ∧ calcRecommendedParamRange (-2 : ℚ) = [(-2 : ℚ) / 10, (-2 : ℚ) * 10] :=
  ⟨by norm_num, (calcRecommendedParamRange_nonzero (-2) (by norm_num)).1⟩

/-- C7: for every value equal to zero, `_calc_recommended_param_range`
returns exactly `[0., 10.]`. -/
theorem calcRecommendedParamRange_zero (v : ℚ) (h : v = 0) :
    calcRecommendedParamRange v = [0, 10] := by
  subst h
  rfl

/-- Witness for C7 at the value `0`. -/
theorem calcRecommendedParamRange_zero_check :
    ((0 : ℚ) = 0) ∧ calcRecommendedParamRange (0 : ℚ) = [0, 10] :=
  ⟨rfl, calcRecommendedParamRange_zero 0 rfl⟩

/-- C8: `write_simulation` and `read_simulation` raise
`NotImplementedError` naming the unsupported format for any format other
than SED-ML — an error result carries no events, so no writer/reader is
constructed and no file is touched — and invoke the SED-ML writer/reader
for `SimulationFormat.sedml`. -/
theorem writeReadSimulation_format_dispatch (format : SimulationFormat) (filename : String) :
    (format ≠ .sedml →
      writeSimulation format filename =
        .error ("NotImplementedError: Simulation experiment format "
          ++ format.memberName ++ " is not supported") ∧
      readSimulation format filename =
        .error ("NotImplementedError: Simulation experiment format "
          ++ format.memberName ++ " is not supported")) ∧
    (format = .sedml →
      writeSimulation format filename = .ok [.constructedWriter, .wroteFile filename] ∧
      readSimulation format filename = .ok [.constructedReader, .readFile filename]) := by
  constructor <;> intro h <;> simp [writeSimulation, readSimulation, h]

/-- Witness for C8 at the SESSL and SED-ML formats. -/
theorem writeReadSimulation_format_dispatch_check :
    SimulationFormat.sessl ≠ SimulationFormat.sedml ∧
    writeSimulation .sessl "sim.sedml" =
      .error "NotImplementedError: Simulation experiment format sessl is not supported" ∧
    readSimulation .sedml "sim.sedml" = .ok [.constructedReader, .readFile "sim.sedml"] :=
  ⟨by decide,
   ((writeReadSimulation_format_dispatch .sessl "sim.sedml").1 (by decide)).1,
   ((writeReadSimulation_format_dispatch .sedml "sim.sedml").2 rfl).2⟩

/-- C9: when the image file already exists, `visualize_biomodel` parses
nothing, posts nothing, changes no file (the world is returned unchanged
and the event list is empty), and returns a `RemoteFile` whose name is the
basename of the image path, whose type is `image/png` and whose size is
the existing file's byte size. -/
theorem visualizeBiomodel_existing_image_frame (svc : MinervaSvc)
    (modelFilename imgFilename : String) (removeLayouts removeUnits : Bool)
    (w : FileWorld) (content : List Nat)
    (h : lookupFile w imgFilename = some content) :
    visualizeBiomodel svc modelFilename imgFilename removeLayouts removeUnits w =
      .ok ({ name := some (basename imgFilename), type := some "image/png",
             size := some (content.length : Int) }, w, []) := by
  simp [visualizeBiomodel, h]

/-- Witness for C9 on a one-file world holding a three-byte image. -/
theorem visualizeBiomodel_existing_image_frame_check :
    lookupFile [("out/img.png", [10, 20, 30])] "out/img.png" = some [10, 20, 30] ∧
    visualizeBiomodel
      { correctModel := fun c _ _ => c, minervaStatus := fun _ => 200,
        minervaContent := fun c => c, crop := fun c => c }
      "model.xml" "out/img.png" true true [("out/img.png", [10, 20, 30])] =
      .ok ({ name := some "img.png", type := some "image/png", size := some 3 },
           [("out/img.png", [10, 20, 30])], []) := by
  refine ⟨rfl, ?_⟩
  have h := visualizeBiomodel_existing_image_frame
    { correctModel := fun c _ _ => c, minervaStatus := fun _ => 200,
      minervaContent := fun c => c, crop := fun c => c }
    "model.xml" "out/img.png" true true [("out/img.png", [10, 20, 30])] [10, 20, 30] rfl
  exact h

/-- C4: for every JSON dict, `Simulation.from_json` returns a
`TimecourseSimulation` exactly when at least one of the keys `startTime`,
`endTime`, `numTimePoints` is present (whatever the stored values), a
`SteadyStateSimulation` exactly when none is present, and never an
instance of the base `Simulation` class. -/
theorem simulation_fromJson_subtype_dispatch (kvs : List (String × Json)) :
    ((∃ t, Simulation.fromJson (Json.jobj kvs) = SimObj.timecourse t) ↔
      ((Json.jobj kvs).hasKey "startTime" || (Json.jobj kvs).hasKey "endTime"
        || (Json.jobj kvs).hasKey "numTimePoints") = true) ∧
    ((∃ s, Simulation.fromJson (Json.jobj kvs) = SimObj.steadyState s) ↔
      ¬ (((Json.jobj kvs).hasKey "startTime" || (Json.jobj kvs).hasKey "endTime"
        || (Json.jobj kvs).hasKey "numTimePoints") = true)) ∧
    (∀ s, Simulation.fromJson (Json.jobj kvs) ≠ SimObj.base s) := by
  by_cases h : ((Json.jobj kvs).hasKey "startTime" || (Json.jobj kvs).hasKey "endTime"
      || (Json.jobj kvs).hasKey "numTimePoints") = true <;>
    simp [Simulation.fromJson, h]

/-- C3: for an SBML model whose declared packages are all supported and
whose comp checks pass, `_read_metadata` raises the ambiguous-framework
`BiomodelIoError` when two or more of fbc/multi/qual are declared, picks
the flux-balance, non-spatial-discrete or logical framework when exactly
the corresponding one is declared, and defaults to the non-spatial
continuous framework when none is declared. -/
theorem readMetadataFramework_selection (d : SbmlDoc)
    (hsup : ∀ p ∈ d.plugins, p ∈ supportedPackages)
    (hdoc : d.hasDocCompPlugin = true → d.docCompModelDefs = 0 ∧ d.docCompExternalModelDefs = 0)
    (hmod : d.hasModelCompPlugin = true → d.modelCompSubmodels = 0) :
    ((("fbc" ∈ d.plugins ∧ "multi" ∈ d.plugins) ∨ ("fbc" ∈ d.plugins ∧ "qual" ∈ d.plugins)
        ∨ ("multi" ∈ d.plugins ∧ "qual" ∈ d.plugins)) →
      readMetadataFramework d = .error "Unable to determine modeling framework") ∧
    ("fbc" ∈ d.plugins → "multi" ∉ d.plugins → "qual" ∉ d.plugins →
      readMetadataFramework d = .ok .flux_balance) ∧
    ("multi" ∈ d.plugins → "fbc" ∉ d.plugins → "qual" ∉ d.plugins →
      readMetadataFramework d = .ok .non_spatial_discrete) ∧
    ("qual" ∈ d.plugins → "fbc" ∉ d.plugins → "multi" ∉ d.plugins →
      readMetadataFramework d = .ok .logical) ∧
    ("fbc" ∉ d.plugins → "multi" ∉ d.plugins → "qual" ∉ d.plugins →
      readMetadataFramework d = .ok .non_spatial_continuous) := by
  have hcont : ∀ x : String, d.plugins.dedup.contains x = true ↔ x ∈ d.plugins := by
    intro x
    rw [List.elem_iff]
    exact List.mem_dedup
  have hunsup : (d.plugins.dedup.filter (fun p => !(supportedPackages.contains p))).isEmpty = true := by
    rw [List.isEmpty_iff, List.filter_eq_nil_iff]
    intro p hp
    have hmem : p ∈ supportedPackages := hsup p (List.mem_dedup.mp hp)
    simpa using hmem
  have hdocCond : (d.hasDocCompPlugin
      && (d.docCompModelDefs != 0 || d.docCompExternalModelDefs != 0)) = false := by
    cases hb : d.hasDocCompPlugin with
    | false => simp
    | true =>
        obtain ⟨h1, h2⟩ := hdoc hb
        simp [h1, h2]
  have hmodCond : (d.hasModelCompPlugin && (d.modelCompSubmodels != 0)) = false := by
    cases hb : d.hasModelCompPlugin with
    | false => simp
    | true => simp [hmod hb]
  have key : readMetadataFramework d =
      (if 1 < (["fbc", "multi", "qual"].filter
          (fun p => d.plugins.dedup.contains p)).length then
        .error "Unable to determine modeling framework"
      else if d.plugins.dedup.contains "fbc" then .ok .flux_balance
      else if d.plugins.dedup.contains "multi" then .ok .non_spatial_discrete
      else if d.plugins.dedup.contains "qual" then .ok .logical
      else .ok .non_spatial_continuous) := by
    simp only [readMetadataFramework, hunsup, hdocCond, hmodCond]
    simp
  by_cases hf : "fbc" ∈ d.plugins <;> by_cases hm : "multi" ∈ d.plugins <;>
    by_cases hq : "qual" ∈ d.plugins
  all_goals {
    first
    | (have cf : d.plugins.dedup.contains "fbc" = true := (hcont "fbc").mpr hf)
    | (have cf : d.plugins.dedup.contains "fbc" = false :=
        Bool.eq_false_iff.mpr (fun hc => hf ((hcont "fbc").mp hc)))
    first
    | (have cm : d.plugins.dedup.contains "multi" = true := (hcont "multi").mpr hm)
    | (have cm : d.plugins.dedup.contains "multi" = false :=
        Bool.eq_false_iff.mpr (fun hc => hm ((hcont "multi").mp hc)))
    first
    | (have cq : d.plugins.dedup.contains "qual" = true := (hcont "qual").mpr hq)
    | (have cq : d.plugins.dedup.contains "qual" = false :=
        Bool.eq_false_iff.mpr (fun hc => hq ((hcont "qual").mp hc)))
    simp [key, cf, cm, cq, hf, hm, hq]
  }

/-- Witness for C3: the document `c3Doc` declares exactly the fbc package
and is assigned the flux-balance framework. -/
theorem readMetadataFramework_selection_check :
    (∀ p ∈ c3Doc.plugins, p ∈ supportedPackages) ∧
    readMetadataFramework c3Doc = .ok .flux_balance := by
  have hsup : ∀ p ∈ c3Doc.plugins, p ∈ supportedPackages := by decide
  refine ⟨hsup, ?_⟩
  exact (readMetadataFramework_selection c3Doc hsup (by decide) (by decide)).2.1
    (by decide) (by decide) (by decide)

/-- C10 counterexample: for the wrapped action `c10Func`, which raises a
generic `ValueError`, the claim's assertion — that the `Action error`
label is added and the original exception is re-raised — is false: no
label request is among the performed GitHub calls and the propagated
exception is the `ActionCaughtError` raised by
`add_error_comment_to_issue`, not the original `ValueError`. -/
theorem catchErrors_label_and_reraise_refuted :
    ¬ (GhEvent.addLabels "101" ["Action error"] ∈ (catchErrors c10Svc "101" c10Msg c10Func).1 ∧
       (catchErrors c10Svc "101" c10Msg c10Func).2 =
         .error (.otherError "ValueError" "invalid specification")) := by
  have hres : catchErrors c10Svc "101" c10Msg c10Func =
      ([.postComment "101" (formatErrorComment c10Msg)],
       .error (.actionCaughtError c10Msg)) := rfl
  rw [hres]
  intro h
  exact absurd h.2 (by simp)

/-- C10 (amended): `add_error_comment_to_issue` never returns normally —
after posting the formatted comment it raises `ActionCaughtError` (or the
`HTTPError` of a failed POST propagates). Consequently, in `_catch_errors`
an `ActionCaughtError` from the wrapped function is re-raised unchanged
with no additional GitHub call, while any other exception causes the error
comment to be posted and is then replaced by that `ActionCaughtError`
(or `HTTPError`): the `Action error` label is never added and the bare
`raise` is unreachable; in every case some exception propagates — nothing
is swallowed. -/
theorem catchErrors_characterization (svc : GhSvc) (issueNumber errorMsg : String)
    (func : GhOutcome) :
    ((addErrorCommentToIssue svc issueNumber errorMsg).2 =
      (if svc.commentPostOk then Except.error (PyExc.actionCaughtError errorMsg)
       else Except.error (PyExc.otherError "HTTPError" "comment post failed"))) ∧
    (∀ u, (addErrorCommentToIssue svc issueNumber errorMsg).2 ≠ .ok u) ∧
    (func.2 = .ok () → catchErrors svc issueNumber errorMsg func = func) ∧
    (∀ m, func.2 = .error (.actionCaughtError m) →
      catchErrors svc issueNumber errorMsg func = func) ∧
    (∀ n m, func.2 = .error (.otherError n m) →
      catchErrors svc issueNumber errorMsg func =
        (func.1 ++ [.postComment issueNumber (formatErrorComment errorMsg)],
         if svc.commentPostOk then .error (.actionCaughtError errorMsg)
         else .error (.otherError "HTTPError" "comment post failed"))) ∧
    (∀ e, func.2 = .error e → ∃ e2, (catchErrors svc issueNumber errorMsg func).2 = .error e2) ∧
    (∀ i ls, GhEvent.addLabels i ls ∈ (catchErrors svc issueNumber errorMsg func).1 →
      GhEvent.addLabels i ls ∈ func.1) := by
  obtain ⟨evs, r⟩ := func
  have hace : addErrorCommentToIssue svc issueNumber errorMsg =
      ([.postComment issueNumber (formatErrorComment errorMsg)],
       if svc.commentPostOk then .error (.actionCaughtError errorMsg)
       else .error (.otherError "HTTPError" "comment post failed")) := by
    cases hc : svc.commentPostOk <;>
      simp [addErrorCommentToIssue, addCommentToIssue, hc]
  refine ⟨by rw [hace], by rw [hace]; cases svc.commentPostOk <;> simp, ?_, ?_, ?_, ?_, ?_⟩
  · intro hr
    simp only at hr
    rw [hr]
    rfl
  · intro m hr
    simp only at hr
    rw [hr]
    rfl
  · intro n m hr
    simp only at hr
    subst hr
    simp only [catchErrors, hace]
    cases svc.commentPostOk <;> simp
  · intro e hr
    simp only at hr
    subst hr
    cases e with
    | actionCaughtError m => exact ⟨.actionCaughtError m, rfl⟩
    | otherError n m =>
        simp only [catchErrors, hace]
        cases svc.commentPostOk <;> simp
  · intro i ls hmem
    cases r with
    | ok u => simpa [catchErrors] using hmem
    | error e =>
        cases e with
        | actionCaughtError m => simpa [catchErrors] using hmem
        | otherError n m =>
            rw [show catchErrors svc issueNumber errorMsg (evs, .error (.otherError n m)) =
                (evs ++ [.postComment issueNumber (formatErrorComment errorMsg)],
                 if svc.commentPostOk then .error (.actionCaughtError errorMsg)
                 else .error (.otherError "HTTPError" "comment post failed")) from by
              simp only [catchErrors, hace]
              cases svc.commentPostOk <;> simp] at hmem
            simp only [List.mem_append, List.mem_singleton] at hmem
            rcases hmem with h | h
            · exact h
            · cases h

/-- Witness for C10 (amended) at the concrete action `c10Func`, which
raises a `ValueError` under a service where every API call succeeds. -/
theorem catchErrors_characterization_check :
    c10Func.2 = .error (.otherError "ValueError" "invalid specification") ∧
    catchErrors c10Svc "101" c10Msg c10Func =
      (c10Func.1 ++ [.postComment "101" (formatErrorComment c10Msg)],
       .error (.actionCaughtError c10Msg)) := by
  have h := (catchErrors_characterization c10Svc "101" c10Msg c10Func).2.2.2.2.1
    "ValueError" "invalid specification" rfl
  refine ⟨rfl, ?_⟩
  rw [h]
  rfl

/-- Dict lookup after a Python dict assignment. -/
theorem dlookup_dinsert (k k' : PKey) (v : BiomodelParameter) (d : PDict) :
    dlookup k (dinsert k' v d) = if k = k' then some v else dlookup k d := by
  induction d with
  | nil =>
      by_cases h : k = k'
      · subst h
        simp [dinsert, dlookup]
      · simp [dinsert, dlookup, h, Ne.symm h]
  | cons kv rest ih =>
      obtain ⟨a, b⟩ := kv
      by_cases h1 : a = k'
      · subst h1
        by_cases h2 : k = a
        · subst h2
          simp [dinsert, dlookup]
        · simp [dinsert, dlookup, h2, Ne.symm h2]
      · by_cases h3 : a = k
        · subst h3
          have hne : ¬ a = k' := h1
          simp [dinsert, dlookup, h1, hne]
        · simp [dinsert, dlookup, h1, h3, ih]

/-- Dict lookup after a Python dict `pop`. -/
theorem dlookup_dpop (k k' : PKey) (d : PDict) :
    dlookup k (dpop k' d) = if k = k' then none else dlookup k d := by
  induction d with
  | nil =>
      by_cases h : k = k' <;> simp [dpop, dlookup, h]
  | cons kv rest ih =>
      obtain ⟨a, b⟩ := kv
      by_cases h1 : a = k'
      · subst h1
        by_cases h2 : k = a
        · subst h2
          simp [dpop, dlookup, ih]
        · simp [dpop, dlookup, h2, Ne.symm h2, ih]
      · by_cases h3 : a = k
        · subst h3
          have hne : ¬ a = k' := h1
          simp [dpop, dlookup, h1, hne]
        · simp [dpop, dlookup, h1, h3, ih]

/-- Lookup after the scalar-rules removal loop: a key is gone exactly when
some scalar rule's variable names it. -/
theorem dlookup_popRules (rs : List SbmlRule) (d : PDict) (k : PKey) :
    dlookup k (popRules rs d) =
      if rs.any (fun r => r.isScalar && (k == PKey.s r.varId)) then none
      else dlookup k d := by
  induction rs generalizing d with
  | nil => simp [popRules]
  | cons r rs ih =>
      simp only [popRules, List.any_cons]
      rw [ih]
      by_cases hs : r.isScalar
      · by_cases hk : k = PKey.s r.varId
        · subst hk
          by_cases hp : (dlookup (PKey.s r.varId) d).isSome
          · simp [hs, hp, dlookup_dpop]
          · have hnone : dlookup (PKey.s r.varId) d = none :=
              Option.not_isSome_iff_eq_none.mp hp
            simp [hs, hp, hnone]
        · have hbk : (k == PKey.s r.varId) = false := by simp [hk]
          by_cases hp : (dlookup (PKey.s r.varId) d).isSome
          · simp [hs, hp, hbk, dlookup_dpop, hk]
          · simp [hs, hp, hbk]
      · rw [Bool.not_eq_true] at hs
        simp [hs]

/-- Lookup after the initial-assignments removal loop. -/
theorem dlookup_popInits (as0 : List SbmlInitialAssignment) (d : PDict) (k : PKey) :
    dlookup k (popInits as0 d) =
      if as0.any (fun a => k == PKey.s a.symbol) then none
      else dlookup k d := by
  induction as0 generalizing d with
  | nil => simp [popInits]
  | cons a as0 ih =>
      simp only [popInits, List.any_cons]
      rw [ih]
      by_cases hk : k = PKey.s a.symbol
      · subst hk
        by_cases hp : (dlookup (PKey.s a.symbol) d).isSome
        · simp [hp, dlookup_dpop]
        · have hnone : dlookup (PKey.s a.symbol) d = none :=
            Option.not_isSome_iff_eq_none.mp hp
          simp [hp, hnone]
      · have hbk : (k == PKey.s a.symbol) = false := by simp [hk]
        by_cases hp : (dlookup (PKey.s a.symbol) d).isSome
        · simp [hp, hbk, dlookup_dpop, hk]
        · simp [hp, hbk]

/-- Lookup after the whole removal second pass: the final content is the
collected content minus the removed ids, whatever order the removals (or
the preceding insertions) happened in. -/
theorem dlookup_removeAssigned (m : SbmlModel) (d : PDict) (k : PKey) :
    dlookup k (removeAssigned m d) =
      if isRemovedKey m k then none else dlookup k d := by
  simp only [removeAssigned, isRemovedKey]
  rw [dlookup_popInits, dlookup_popRules]
  by_cases h1 : m.rules.any (fun r => r.isScalar && (k == PKey.s r.varId)) <;>
    by_cases h2 : m.initialAssignments.any (fun a => k == PKey.s a.symbol) <;>
      simp [h1, h2]

/-- Inserting never removes a key. -/
theorem dhasKey_dinsert (k k' : PKey) (v : BiomodelParameter) (d : PDict)
    (h : dhasKey k d = true) : dhasKey k (dinsert k' v d) = true := by
  simp only [dhasKey, dlookup_dinsert]
  by_cases hk : k = k'
  · simp [hk]
  · simpa [hk] using h

/-- An inserted key is present. -/
theorem dhasKey_dinsert_self (k : PKey) (v : BiomodelParameter) (d : PDict) :
    dhasKey k (dinsert k v d) = true := by
  simp [dhasKey, dlookup_dinsert]

/-- The initial-assignments pass only adds entries. -/
theorem insertInitAssigns_mono (pretty : String → String)
    (elems : List (String × SbmlElementInfo)) (as0 : List SbmlInitialAssignment)
    (d d' : PDict) (k : PKey)
    (hok : insertInitAssigns pretty elems as0 d = .ok d')
    (h : dhasKey k d = true) : dhasKey k d' = true := by
  induction as0 generalizing d with
  | nil =>
      simp only [insertInitAssigns] at hok
      cases hok
      exact h
  | cons a as0 ih =>
      simp only [insertInitAssigns] at hok
      cases hcm : constFromMath a.math with
      | none =>
          simp only [hcm] at hok
          exact ih d hok h
      | some tv =>
          obtain ⟨ty, rv, jv⟩ := tv
          simp only [hcm] at hok
          cases hfind : (elems.find? (fun kv => kv.1 = a.symbol)).map Prod.snd with
          | none =>
              simp only [hfind] at hok
              cases hok
          | some el =>
              simp only [hfind] at hok
              exact ih _ hok (dhasKey_dinsert _ _ _ _ h)

/-- The assignment-rules pass only adds entries. -/
theorem insertRules_mono (pretty : String → String)
    (elems : List (String × SbmlElementInfo)) (rs : List SbmlRule)
    (d d' : PDict) (k : PKey)
    (hok : insertRules pretty elems rs d = .ok d')
    (h : dhasKey k d = true) : dhasKey k d' = true := by
  induction rs generalizing d with
  | nil =>
      simp only [insertRules] at hok
      cases hok
      exact h
  | cons r rs ih =>
      simp only [insertRules] at hok
      by_cases hs : r.isScalar
      · simp only [hs, Bool.not_true, Bool.false_eq_true, if_false] at hok
        cases hcm : constFromMath r.math with
        | none =>
            simp only [hcm] at hok
            exact ih d hok h
        | some tv =>
            obtain ⟨ty, rv, jv⟩ := tv
            simp only [hcm] at hok
            cases hfind : (elems.find? (fun kv => kv.1 = r.varId)).map Prod.snd with
            | none =>
                simp only [hfind] at hok
                cases hok
            | some el =>
                simp only [hfind] at hok
                exact ih _ hok (dhasKey_dinsert _ _ _ _ h)
      · rw [Bool.not_eq_true] at hs
        simp only [hs, Bool.not_false, if_true] at hok
        exact ih d hok h

/-- The flux-objective loop only adds entries. -/
theorem insertFluxObjectives_mono (reactions : List SbmlReaction)
    (objId objName : String) (lastSp : Option String)
    (fos : List SbmlFluxObjective) (d d' : PDict) (k : PKey)
    (hok : insertFluxObjectives reactions objId objName lastSp fos d = .ok d')
    (h : dhasKey k d = true) : dhasKey k d' = true := by
  induction fos generalizing d with
  | nil =>
      simp only [insertFluxObjectives] at hok
      cases hok
      exact h
  | cons fo fos ih =>
      simp only [insertFluxObjectives] at hok
      cases hfind : reactions.find? (fun r => r.id = fo.reaction) with
      | none =>
          simp only [hfind] at hok
          cases hok
      | some r =>
          simp only [hfind] at hok
          cases lastSp with
          | none => cases hok
          | some sid =>
              exact ih _ hok (dhasKey_dinsert _ _ _ _ h)

/-- The fbc pass only adds entries. -/
theorem insertFbc_mono (fbc : Option SbmlFbcPlugin) (reactions : List SbmlReaction)
    (lastSp : Option String) (d d' : PDict) (k : PKey)
    (hok : insertFbc fbc reactions lastSp d = .ok d')
    (h : dhasKey k d = true) : dhasKey k d' = true := by
  cases fbc with
  | none =>
      simp only [insertFbc] at hok
      cases hok
      exact h
  | some plugin =>
      cases hobj : plugin.activeObjective with
      | none =>
          simp only [insertFbc, hobj] at hok
          cases hok
      | some obj =>
          simp only [insertFbc, hobj] at hok
          exact insertFluxObjectives_mono _ _ _ _ _ _ _ _ hok h

/-- The qual pass only adds entries. -/
theorem insertQualSpecies_mono (qs : List SbmlQualSpecies) (d : PDict) (k : PKey)
    (h : dhasKey k d = true) : dhasKey k (insertQualSpecies qs d) = true := by
  induction qs generalizing d with
  | nil => simpa [insertQualSpecies] using h
  | cons q qs ih =>
      simp only [insertQualSpecies]
      exact ih _ (dhasKey_dinsert _ _ _ _ h)

/-- After a successful assignment-rules pass, every scalar rule with
constant math has its `assignment_<variable>` entry in the dict. -/
theorem insertRules_inserts (pretty : String → String)
    (elems : List (String × SbmlElementInfo)) (rs : List SbmlRule)
    (d d' : PDict) (r : SbmlRule)
    (hok : insertRules pretty elems rs d = .ok d')
    (hr : r ∈ rs) (hs : r.isScalar = true)
    (hc : (constFromMath r.math).isSome = true) :
    dhasKey (PKey.s ("assignment_" ++ r.varId)) d' = true := by
  induction rs generalizing d with
  | nil => cases hr
  | cons r0 rs ih =>
      rcases List.mem_cons.mp hr with rfl | hr'
      · simp only [insertRules, hs, Bool.not_true, Bool.false_eq_true, if_false] at hok
        obtain ⟨tv, hcm⟩ := Option.isSome_iff_exists.mp hc
        obtain ⟨ty, rv, jv⟩ := tv
        simp only [hcm] at hok
        cases hfind : (elems.find? (fun kv => kv.1 = r.varId)).map Prod.snd with
        | none =>
            simp only [hfind] at hok
            cases hok
        | some el =>
            simp only [hfind] at hok
            exact insertRules_mono _ _ _ _ _ _ hok (dhasKey_dinsert_self _ _ _)
      · simp only [insertRules] at hok
        by_cases hs0 : r0.isScalar
        · simp only [hs0, Bool.not_true, Bool.false_eq_true, if_false] at hok
          cases hcm : constFromMath r0.math with
          | none =>
              simp only [hcm] at hok
              exact ih _ hok hr'
          | some tv =>
              obtain ⟨ty, rv, jv⟩ := tv
              simp only [hcm] at hok
              cases hfind : (elems.find? (fun kv => kv.1 = r0.varId)).map Prod.snd with
              | none =>
                  simp only [hfind] at hok
                  cases hok
              | some el =>
                  simp only [hfind] at hok
                  exact ih _ hok hr'
        · rw [Bool.not_eq_true] at hs0
          simp only [hs0, Bool.not_false, if_true] at hok
          exact ih _ hok hr'

/-- After a successful initial-assignments pass, every initial assignment
with constant math has its `init_assignment_<symbol>` entry in the dict. -/
theorem insertInitAssigns_inserts (pretty : String → String)
    (elems : List (String × SbmlElementInfo)) (as0 : List SbmlInitialAssignment)
    (d d' : PDict) (a : SbmlInitialAssignment)
    (hok : insertInitAssigns pretty elems as0 d = .ok d')
    (ha : a ∈ as0)
    (hc : (constFromMath a.math).isSome = true) :
    dhasKey (PKey.s ("init_assignment_" ++ a.symbol)) d' = true := by
  induction as0 generalizing d with
  | nil => cases ha
  | cons a0 as0 ih =>
      rcases List.mem_cons.mp ha with rfl | ha'
      · simp only [insertInitAssigns] at hok
        obtain ⟨tv, hcm⟩ := Option.isSome_iff_exists.mp hc
        obtain ⟨ty, rv, jv⟩ := tv
        simp only [hcm] at hok
        cases hfind : (elems.find? (fun kv => kv.1 = a.symbol)).map Prod.snd with
        | none =>
            simp only [hfind] at hok
            cases hok
        | some el =>
            simp only [hfind] at hok
            exact insertInitAssigns_mono _ _ _ _ _ _ hok (dhasKey_dinsert_self _ _ _)
      · simp only [insertInitAssigns] at hok
        cases hcm : constFromMath a0.math with
        | none =>
            simp only [hcm] at hok
            exact ih _ hok ha'
        | some tv =>
            obtain ⟨ty, rv, jv⟩ := tv
            simp only [hcm] at hok
            cases hfind : (elems.find? (fun kv => kv.1 = a0.symbol)).map Prod.snd with
            | none =>
                simp only [hfind] at hok
                cases hok
            | some el =>
                simp only [hfind] at hok
                exact ih _ hok ha'

/-- A key outside an association list's keys has no lookup result. -/
theorem lookup_none_of_not_mem_keys {β : Type} (ps : List (PKey × β)) (k : PKey)
    (h : k ∉ ps.map Prod.fst) : ps.lookup k = none := by
  induction ps with
  | nil => rfl
  | cons kv rest ih =>
      obtain ⟨a, b⟩ := kv
      simp only [List.map_cons, List.mem_cons] at h
      push_neg at h
      obtain ⟨h1, h2⟩ := h
      have hbeq : (k == a) = false := by simp [h1]
      simp [List.lookup, hbeq, ih h2]

/-- Over an association list with distinct keys, lookup agrees with
membership of the pair. -/
theorem lookup_eq_some_iff_mem {β : Type} (ps : List (PKey × β)) (k : PKey) (v : β)
    (hn : (ps.map Prod.fst).Nodup) : ps.lookup k = some v ↔ (k, v) ∈ ps := by
  induction ps with
  | nil => simp [List.lookup]
  | cons kv rest ih =>
      obtain ⟨a, b⟩ := kv
      simp only [List.map_cons, List.nodup_cons] at hn
      obtain ⟨hna, hnd⟩ := hn
      by_cases hk : a = k
      · subst hk
        simp only [List.lookup, beq_self_eq_true, List.mem_cons]
        constructor
        · intro h
          cases h
          exact Or.inl rfl
        · rintro (h | h)
          · cases h
            rfl
          · exact absurd (List.mem_map_of_mem Prod.fst h) hna
      · have hbeq : (k == a) = false := by simp [Ne.symm hk]
        simp only [List.lookup, hbeq, List.mem_cons]
        rw [ih hnd]
        constructor
        · exact Or.inr
        · rintro (h | h)
          · cases h
            exact absurd rfl hk
          · exact h

/-- Lookup over an association list with distinct keys is invariant under
permutation of the list. -/
theorem lookup_perm {β : Type} (ps qs : List (PKey × β)) (hp : ps.Perm qs)
    (hn : (ps.map Prod.fst).Nodup) (k : PKey) : ps.lookup k = qs.lookup k := by
  have hnq : (qs.map Prod.fst).Nodup := ((hp.map Prod.fst).nodup_iff).mp hn
  cases hps : ps.lookup k with
  | some v =>
      have hmem := (lookup_eq_some_iff_mem ps k v hn).mp hps
      exact ((lookup_eq_some_iff_mem qs k v hnq).mpr (hp.mem_iff.mp hmem)).symm
  | none =>
      cases hqs : qs.lookup k with
      | none => rfl
      | some v =>
          have hmem := (lookup_eq_some_iff_mem qs k v hnq).mp hqs
          rw [(lookup_eq_some_iff_mem ps k v hn).mpr (hp.mem_iff.mpr hmem)] at hps
          cases hps

/-- Folding Python dict assignments of pairwise-distinct keys over a dict:
the inserted binding wins for inserted keys, the dict is consulted for the
rest. -/
theorem dlookup_foldl_dinsert (ps : List (PKey × BiomodelParameter)) (d : PDict)
    (hn : (ps.map Prod.fst).Nodup) (k : PKey) :
    dlookup k (ps.foldl (fun acc kv => dinsert kv.1 kv.2 acc) d) =
      match ps.lookup k with
      | some v => some v
      | none => dlookup k d := by
  induction ps generalizing d with
  | nil => simp [List.lookup]
  | cons kv rest ih =>
      obtain ⟨a, b⟩ := kv
      simp only [List.map_cons, List.nodup_cons] at hn
      obtain ⟨hna, hnd⟩ := hn
      simp only [List.foldl_cons]
      rw [ih _ hnd]
      by_cases hk : a = k
      · subst hk
        have hnone : rest.lookup a = none := lookup_none_of_not_mem_keys rest a hna
        simp [List.lookup, hnone, dlookup_dinsert]
      · have hbeq : (k == a) = false := by simp [Ne.symm hk]
        simp only [List.lookup, hbeq]
        cases hr : rest.lookup k with
        | some w => simp [hr]
        | none => simp [hr, dlookup_dinsert, Ne.symm hk]

/-- Building a dict from pairwise-distinct-keyed pairs: the content is the
association itself. -/
theorem dlookup_insertAll (ps : List (PKey × BiomodelParameter))
    (hn : (ps.map Prod.fst).Nodup) (k : PKey) :
    dlookup k (insertAll ps) = ps.lookup k := by
  have h := dlookup_foldl_dinsert ps [] hn k
  simp only [insertAll]
  rw [h]
  cases ps.lookup k <;> simp [dlookup]

/-- The content of a dict built from pairwise-distinct-keyed pairs does
not depend on the insertion order. -/
theorem insertAll_perm (ps qs : List (PKey × BiomodelParameter)) (hp : ps.Perm qs)
    (hn : (ps.map Prod.fst).Nodup) (k : PKey) :
    dlookup k (insertAll ps) = dlookup k (insertAll qs) := by
  have hnq : (qs.map Prod.fst).Nodup := ((hp.map Prod.fst).nodup_iff).mp hn
  rw [dlookup_insertAll ps hn k, dlookup_insertAll qs hnq k, lookup_perm ps qs hp hn k]

/-- C5 counterexample: in `c5CexModel` a global parameter is literally
named `assignment_x` and scalar constant rules target both `x` and
`assignment_x`. The derived entry `assignment_x` (for the rule on `x`) is
present after the collection passes, but the removal pass — keyed on the
rule variables — deletes it, so the claim that entries under derived
`assignment_<id>` keys are retained is false as stated. -/
theorem derived_assignment_key_not_retained :
    (collectParameters (fun s => s) [] c5CexModel).map
        (fun x => dhasKey (PKey.s "assignment_x") x.1) = .ok true ∧
    (readParametersDict (fun s => s) [] c5CexModel).map
        (fun d => dhasKey (PKey.s "assignment_x") d) = .ok false :=
  ⟨rfl, rfl⟩

/-- C5 (amended): after `_read_parameters` completes with dict `d`, no key
equals the variable of a scalar assignment rule or the symbol of an initial
assignment; an entry under a derived key `assignment_<id>` or
`init_assignment_<id>` (for a scalar rule / initial assignment with
constant math) is present provided the derived key itself is not among the
removed ids; the final content is the collected content minus the removed
ids; and the content of a dict built by inserting pairwise-distinct keys
is independent of the insertion order. -/
theorem readParameters_removal_pass (pretty : String → String)
    (units : List (String × String)) (m : SbmlModel) (d : PDict)
    (h : readParametersDict pretty units m = .ok d) :
    (∀ r ∈ m.rules, r.isScalar = true → dlookup (PKey.s r.varId) d = none) ∧
    (∀ a ∈ m.initialAssignments, dlookup (PKey.s a.symbol) d = none) ∧
    (∀ r ∈ m.rules, r.isScalar = true → (constFromMath r.math).isSome = true →
      isRemovedKey m (PKey.s ("assignment_" ++ r.varId)) = false →
      dhasKey (PKey.s ("assignment_" ++ r.varId)) d = true) ∧
    (∀ a ∈ m.initialAssignments, (constFromMath a.math).isSome = true →
      isRemovedKey m (PKey.s ("init_assignment_" ++ a.symbol)) = false →
      dhasKey (PKey.s ("init_assignment_" ++ a.symbol)) d = true) ∧
    (∃ x, collectParameters pretty units m = .ok x ∧
      ∀ k, dlookup k d = if isRemovedKey m k then none else dlookup k x.1) ∧
    (∀ ps qs : List (PKey × BiomodelParameter), ps.Perm qs →
      (ps.map Prod.fst).Nodup → ∀ k, dlookup k (insertAll ps) = dlookup k (insertAll qs)) := by
  rcases h1 : insertGlobals pretty m.formatVersion m.parameters [] with e1 | d1
  · exfalso
    simp [readParametersDict, collectParameters, h1, Except.map] at h
  rcases h2 : insertLocals pretty m.formatVersion m.reactions d1 with e2 | d2
  · exfalso
    simp [readParametersDict, collectParameters, h1, h2, Except.map] at h
  rcases h3 : insertComps pretty m.compartments d2 with e3 | d3
  · exfalso
    simp [readParametersDict, collectParameters, h1, h2, h3, Except.map] at h
  rcases h4 : insertSpecies pretty units m.substanceUnits m.compartments m.species d3 none
    with e4 | x4
  · exfalso
    simp [readParametersDict, collectParameters, h1, h2, h3, h4, Except.map] at h
  obtain ⟨d4, lastSp⟩ := x4
  rcases h5 : insertInitAssigns pretty m.elementsById m.initialAssignments d4 with e5 | d5
  · exfalso
    simp [readParametersDict, collectParameters, h1, h2, h3, h4, h5, Except.map] at h
  rcases h6 : insertRules pretty m.elementsById m.rules d5 with e6 | d6
  · exfalso
    simp [readParametersDict, collectParameters, h1, h2, h3, h4, h5, h6, Except.map] at h
  rcases h7 : insertFbc m.fbc m.reactions lastSp d6 with e7 | d7
  · exfalso
    simp [readParametersDict, collectParameters, h1, h2, h3, h4, h5, h6, h7, Except.map] at h
  have hcollect : collectParameters pretty units m =
      .ok (insertQualSpecies (m.qual.getD []) d7, lastSp) := by
    simp [collectParameters, h1, h2, h3, h4, h5, h6, h7]
  have hd : removeAssigned m (insertQualSpecies (m.qual.getD []) d7) = d := by
    simp only [readParametersDict, hcollect, Except.map] at h
    exact Except.ok.inj h
  subst hd
  refine ⟨?_, ?_, ?_, ?_, ?_, ?_⟩
  · intro r hr hs
    have hrem : isRemovedKey m (PKey.s r.varId) = true := by
      simp only [isRemovedKey, Bool.or_eq_true, List.any_eq_true]
      exact Or.inl ⟨r, hr, by simp [hs]⟩
    simp [dlookup_removeAssigned, hrem]
  · intro a ha
    have hrem : isRemovedKey m (PKey.s a.symbol) = true := by
      simp only [isRemovedKey, Bool.or_eq_true, List.any_eq_true]
      exact Or.inr ⟨a, ha, by simp⟩
    simp [dlookup_removeAssigned, hrem]
  · intro r hr hs hcm hnotrem
    have k6 := insertRules_inserts pretty m.elementsById m.rules d5 d6 r h6 hr hs hcm
    have k7 := insertFbc_mono m.fbc m.reactions lastSp d6 d7 _ h7 k6
    have k8 := insertQualSpecies_mono (m.qual.getD []) d7 _ k7
    simp only [dhasKey, dlookup_removeAssigned, hnotrem, Bool.false_eq_true, if_false] at *
    exact k8
  · intro a ha hcm hnotrem
    have k5 := insertInitAssigns_inserts pretty m.elementsById m.initialAssignments d4 d5
      a h5 ha hcm
    have k6 := insertRules_mono pretty m.elementsById m.rules d5 d6 _ h6 k5
    have k7 := insertFbc_mono m.fbc m.reactions lastSp d6 d7 _ h7 k6
    have k8 := insertQualSpecies_mono (m.qual.getD []) d7 _ k7
    simp only [dhasKey, dlookup_removeAssigned, hnotrem, Bool.false_eq_true, if_false] at *
    exact k8
  · exact ⟨(insertQualSpecies (m.qual.getD []) d7, lastSp), hcollect,
      fun k => dlookup_removeAssigned m _ k⟩
  · exact fun ps qs hp hn k => insertAll_perm ps qs hp hn k

/-- Witness for C5 (amended) at the model `c5Model`: the removed ids `x`
and `y` are gone from the final dict while the derived entries
`assignment_x` and `init_assignment_y` are present. -/
theorem readParameters_removal_pass_check :
    readParametersDict (fun s => s) [] c5Model = .ok c5Dict ∧
    dlookup (PKey.s "x") c5Dict = none ∧
    dlookup (PKey.s "y") c5Dict = none ∧
    dhasKey (PKey.s "assignment_x") c5Dict = true ∧
    dhasKey (PKey.s "init_assignment_y") c5Dict = true := by
  have h : readParametersDict (fun s => s) [] c5Model = .ok c5Dict := rfl
  have parts := readParameters_removal_pass (fun s => s) [] c5Model c5Dict h
  refine ⟨h, ?_, ?_, ?_, ?_⟩
  · exact parts.1 { isScalar := true, varId := "x", math := .real (1/2) }
      (by simp [c5Model]) rfl
  · exact parts.2.1 { symbol := "y", math := .integer 7 } (by simp [c5Model])
  · exact parts.2.2.1 { isScalar := true, varId := "x", math := .real (1/2) }
      (by simp [c5Model]) rfl rfl rfl
  · exact parts.2.2.2.1 { symbol := "y", math := .integer 7 } (by simp [c5Model]) rfl rfl
